import Mathlib

/-!
Shallow embedding of the panvk CSF compute-dispatch compiler
(`src/panfrost/vulkan/csf/panvk_vX_cmd_dispatch.c`) together with the
internal precompiled-kernel dispatch path (`dispatch_precomp`) and the
subqueue data model (`panvk_queue.h`).

The instruction emitter is modelled as an append-only list of typed
instructions; transient GPU allocation is modelled as an oracle list of
GPU addresses (0 encodes the out-of-memory result, matching the C code's
`!ptr.gpu` checks), with every request logged so that size/alignment
contracts can be stated.  Helper routines that the dispatch compiler
calls but whose definitions are not part of the excerpt
(`compute_state_dirty`, `clear_dirty_after_dispatch`,
`panvk_cmd_alloc_*`, `cmd_prepare_push_descs`, `cmd_prepare_push_uniforms`,
`cmd_prepare_shader_res_table`, `pan_calc_total_wls_size`, …) are modelled
from the specification, as noted on each definition.
-/

namespace Panvk

/-- Three unsigned dimensions (workgroup counts / local sizes). -/
structure Dim3 where
  x : Nat
  y : Nat
  z : Nat
  deriving DecidableEq, Repr

/-- Shader artifact interface: entry-point address (`spd`, 0 when no shader
is bound), declared TLS/WLS sizes, workgroup shape, dynamic-buffer count,
FAU count, which `num_work_groups` system values it reads and their
remapped offsets, and opaque sizes for the spec-modelled rebuild steps. -/
structure Shader where
  spd : Nat
  tls_size : Nat
  wls_size : Nat
  local_size : Dim3
  dyn_bufs_count : Nat
  fau_total_count : Nat
  uses_num_wg_x : Bool
  uses_num_wg_y : Bool
  uses_num_wg_z : Bool
  sysval_off_x : Nat
  sysval_off_y : Nat
  sysval_off_z : Nat
  push_descs_size : Nat
  push_uniforms_size : Nat
  res_table_size : Nat
  deriving DecidableEq, Repr

/-- Physical-device interface: hardware generation, core-id range, and the
core-topology derived sizing functions consumed as opaque collaborators
(`pan_calc_wls_instances`, `pan_calc_workgroups_per_task`,
`calculate_task_axis_and_increment`). -/
structure PhysDev where
  arch : Nat
  core_id_range : Nat
  calcWlsInstances : Dim3 → Option Dim3 → Nat
  calcWgPerTask : Dim3 → Nat
  taskAxisIncrement : Shader → Nat × Nat

/-- Compute shader registers referenced by the dispatch compiler. -/
inductive SR
  | SRT_0
  | FAU_0
  | SPD_0
  | TSD_0
  | GLOBAL_ATTRIBUTE_OFFSET
  | WG_SIZE
  | JOB_OFFSET_X
  | JOB_OFFSET_Y
  | JOB_OFFSET_Z
  | JOB_SIZE_X
  | JOB_SIZE_Y
  | JOB_SIZE_Z
  deriving DecidableEq, Repr

/-- Deferred-signal kinds for `cs_sync64_add`: `cs_defer_indirect()` on v11+
hardware, or an explicit wait on scoreboard-iteration slot `x` on earlier
generations. -/
inductive DeferKind
  | indirect
  | iterWait (x : Nat)
  deriving DecidableEq, Repr

/-- Typed GPU instructions emitted into a subqueue's stream.  Scratch
registers are named by index; the structured `cs_match`/`cs_case`
construct of the builder is flattened into begin markers followed by the
per-case instructions. -/
inductive Instr
  | move32 (dst : SR) (val : Nat)
  | move64 (dst : SR) (val : Nat)
  | scratchMove64 (idx : Nat) (val : Nat)
  | scratchLoad64 (dst src : Nat) (offset : Nat)
  | scratchStore64 (src addr : Nat) (offset : Nat)
  | loadTupleSR (dst : SR) (count : Nat) (srcScratch : Nat) (mask offset : Nat)
  | storeSR32 (src : SR) (addrScratch : Nat) (offset : Nat)
  | flushStores
  | nextIterSB
  | loadCtx64 (dstScratch : Nat) (offset : Nat)
  | loadCtxTuple (dstScratch count mask offset : Nat)
  | add64 (dst src : Nat) (imm : Nat)
  | syncAdd64 (valScratch addrScratch : Nat) (defer : DeferKind)
  | matchBegin (iterScratch cmpScratch : Nat)
  | caseBegin (caseVal : Nat)
  | runCompute (taskIncrement taskAxis : Nat)
  deriving DecidableEq, Repr

/-- Entry of the driver-owned descriptor table: the fixed dummy sampler or
the descriptor of dynamic buffer `i`. -/
inductive DescEntry
  | dummySampler
  | dynBuf (i : Nat)
  deriving DecidableEq, Repr

/-- Result codes surfaced by the dispatch compiler's allocation steps. -/
inductive VkResult
  | success
  | errorOutOfDeviceMemory
  deriving DecidableEq, Repr

/-- Log entry recorded for every transient-allocation request. -/
structure AllocEntry where
  size : Nat
  align : Nat
  result : Nat
  deriving DecidableEq, Repr

/-- Command-buffer state touched by the compute dispatch path: the bound
compute shader, the three compute dirty aspects, the per-buffer TLS
tracking, the cached descriptor/uniform/resource-table addresses, the
driver-owned descriptor table contents, the compute subqueue's relative
sync point, the allocation oracle with its log, and the compute
subqueue's emitted instruction stream. -/
structure CmdBuffer where
  shader : Shader
  dirty_cs : Bool
  dirty_desc_state : Bool
  dirty_push_uniforms : Bool
  tls_info_size : Nat
  tls_desc_gpu : Nat
  push_uniforms : Nat
  push_descs : Nat
  res_table : Nat
  driver_set_addr : Nat
  driver_set_size : Nat
  driver_set_entries : List DescEntry
  relative_sync_point : Nat
  allocs : List Nat
  allocLog : List AllocEntry
  stream : List Instr
  deriving DecidableEq, Repr

/-- Modelled from the spec: size in bytes of one descriptor slot
(`PANVK_DESCRIPTOR_SIZE`); the exact byte value is not part of the
excerpt, only that table sizes are measured in multiples of it. -/
def PANVK_DESCRIPTOR_SIZE : Nat := 32

/-- Modelled from the spec: size of a `LOCAL_STORAGE` descriptor
(`panvk_cmd_alloc_desc(cmdbuf, LOCAL_STORAGE)`); genxml constant not in
the excerpt. -/
def LOCAL_STORAGE_DESC_SIZE : Nat := 32

/-- Modelled from the spec: `MALI_TASK_AXIS_X` (genxml enum value). -/
def TASK_AXIS_X : Nat := 0

/-- Modelled from the spec: compute subqueue index
(`PANVK_SUBQUEUE_COMPUTE` from `panvk_queue.h`). -/
def SUBQUEUE_COMPUTE : Nat := 2

/-- Modelled from the spec: `sizeof(struct panvk_cs_sync64)`; struct layout
not in the excerpt. -/
def SYNC64_SIZE : Nat := 16

/-- Modelled from the spec: `offsetof(struct panvk_cs_subqueue_context,
syncobjs)`; struct layout not in the excerpt. -/
def SYNCOBJS_OFFSET : Nat := 0

/-- Modelled from the spec: `BIFROST_PRECOMPILED_KERNEL_SYSVALS_SIZE`
(size of `struct bifrost_precompiled_kernel_sysvals`); not in the
excerpt. -/
def PRECOMP_SYSVALS_SIZE : Nat := 32

/-- Modelled from the spec: abstract packing of the workgroup-size
register (`COMPUTE_SIZE_WORKGROUP`); the exact genxml bit layout is not
in the excerpt, only that it packs the three local sizes into one 32-bit
word. -/
def pack_wg_size (d : Dim3) : Nat :=
  d.x % 1024 + (d.y % 1024) * 1024 + (d.z % 1024) * 1048576

/-- FAU register value: push-uniform pointer with the FAU count packed
into the top byte (`push_uniforms | ((uint64_t)count << 56)`). -/
def fau_ptr (push_uniforms count : Nat) : Nat :=
  Nat.lor push_uniforms (count <<< 56)

/-- Modelled from the spec: the Transient Allocator Facade
(`panvk_cmd_alloc_dev_mem` / `panvk_cmd_alloc_desc`): pops the next GPU
address from the oracle (0 = `OUT_OF_DEVICE_MEMORY`, matching the C
code's `!ptr.gpu` checks) and records the request in the log. -/
def alloc (c : CmdBuffer) (size align : Nat) : Nat × CmdBuffer :=
  let a := c.allocs.headD 0
  (a, { c with allocs := c.allocs.tail,
               allocLog := c.allocLog ++ [⟨size, align, a⟩] })

/-- Modelled from the spec: `pan_calc_total_wls_size` — workgroup-local
storage total size = `per_workgroup_size × instance_count ×
core_id_range`; the function body is common pan code not in the
excerpt. -/
def pan_calc_total_wls_size (size instances core_id_range : Nat) : Nat :=
  size * instances * core_id_range

/-- Modelled from the spec: `clear_dirty_after_dispatch` — clears all
compute dirty aspects after a dispatch has successfully consumed the
rebuilt state (spec step 10). -/
def clear_dirty_after_dispatch (c : CmdBuffer) : CmdBuffer :=
  { c with dirty_cs := false, dirty_desc_state := false,
           dirty_push_uniforms := false }

/-- Modelled from the spec: `panvk_per_arch(cmd_prepare_push_descs)` —
copies the push descriptors into a freshly allocated transient block; may
fail with `OUT_OF_DEVICE_MEMORY`; does not touch dirty flags. -/
def cmd_prepare_push_descs (c : CmdBuffer) : VkResult × CmdBuffer :=
  let ac := alloc c c.shader.push_descs_size PANVK_DESCRIPTOR_SIZE
  if ac.1 = 0 then (.errorOutOfDeviceMemory, ac.2)
  else (.success, { ac.2 with push_descs := ac.1 })

/-- Modelled from the spec: `panvk_per_arch(cmd_prepare_push_uniforms)` —
if the push-uniforms aspect is dirty, rebuilds the push-uniform block in
a freshly allocated transient block and records its GPU address; may fail
with `OUT_OF_DEVICE_MEMORY`; dirty flags are only cleared later by
`clear_dirty_after_dispatch`. -/
def cmd_prepare_push_uniforms (c : CmdBuffer) : VkResult × CmdBuffer :=
  if c.dirty_push_uniforms then
    let ac := alloc c c.shader.push_uniforms_size 16
    if ac.1 = 0 then (.errorOutOfDeviceMemory, ac.2)
    else (.success, { ac.2 with push_uniforms := ac.1 })
  else (.success, c)

/-- Modelled from the spec: `panvk_per_arch(cmd_prepare_shader_res_table)`
— rebuilds the shader resource table in a freshly allocated transient
block and records its GPU address in `cs_desc_state->res_table`; may fail
with `OUT_OF_DEVICE_MEMORY`. -/
def cmd_prepare_shader_res_table (c : CmdBuffer) : VkResult × CmdBuffer :=
  let ac := alloc c c.shader.res_table_size PANVK_DESCRIPTOR_SIZE
  if ac.1 = 0 then (.errorOutOfDeviceMemory, ac.2)
  else (.success, { ac.2 with res_table := ac.1 })

/-- Embeds `prepare_driver_set` (panvk_vX_cmd_dispatch.c:34-67): when the
shader or descriptor-state aspect is dirty, allocates a table of
`dyn_bufs.count + 1` descriptors, writes the dummy sampler at index 0
followed by the dynamic-buffer descriptors (`cmd_fill_dyn_bufs`), records
address and size, and re-marks DESC_STATE dirty. -/
def prepare_driver_set (c : CmdBuffer) : VkResult × CmdBuffer :=
  if !(c.dirty_cs || c.dirty_desc_state) then (.success, c)
  else
    let desc_count := c.shader.dyn_bufs_count + 1
    let ac := alloc c (desc_count * PANVK_DESCRIPTOR_SIZE) PANVK_DESCRIPTOR_SIZE
    if ac.1 = 0 then (.errorOutOfDeviceMemory, ac.2)
    else
      (.success,
        { ac.2 with
          driver_set_entries :=
            DescEntry.dummySampler ::
              (List.range c.shader.dyn_bufs_count).map DescEntry.dynBuf,
          driver_set_addr := ac.1,
          driver_set_size := desc_count * PANVK_DESCRIPTOR_SIZE,
          dirty_desc_state := true })

/-- WLS sizing and allocation step of `cmd_dispatch_prepare_tls`
(panvk_vX_cmd_dispatch.c:87-106): when the shader declares WLS, computes
the instance count (`pan_calc_wls_instances` with the actual dimensions
for direct dispatch, `NULL` for indirect) and the total size, then
allocates the block with 4096 alignment; the returned value is the
block's GPU address (0 on failure), or a trivially nonzero marker when
the shader declares no WLS. -/
def tls_wls_alloc (phys : PhysDev) (sh : Shader) (dim : Dim3) (indirect : Bool)
    (c : CmdBuffer) : Nat × CmdBuffer :=
  if sh.wls_size ≠ 0 then
    alloc c
      (pan_calc_total_wls_size sh.wls_size
        (phys.calcWlsInstances sh.local_size
          (if indirect then none else some dim))
        phys.core_id_range)
      4096
  else ((1 : Nat), c)

/-- TLS growth step of `cmd_dispatch_prepare_tls`
(panvk_vX_cmd_dispatch.c:108-109): the per-command-buffer TLS size is the
maximum of the shader's declared size and the value seen so far. -/
def tls_grow (sh : Shader) (c : CmdBuffer) : CmdBuffer :=
  { c with tls_info_size := max sh.tls_size c.tls_info_size }

/-- Lazy command-buffer TLS-descriptor allocation step of
`cmd_dispatch_prepare_tls` (panvk_vX_cmd_dispatch.c:111-115): allocate
once per command buffer; the returned flag is false exactly when an
allocation was attempted and failed. -/
def tls_desc_step (c : CmdBuffer) : Bool × CmdBuffer :=
  if c.tls_desc_gpu = 0 then
    let d := alloc c LOCAL_STORAGE_DESC_SIZE LOCAL_STORAGE_DESC_SIZE
    if d.1 = 0 then (false, d.2)
    else (true, { d.2 with tls_desc_gpu := d.1 })
  else (true, c)

/-- Embeds `panvk_per_arch(cmd_dispatch_prepare_tls)`
(panvk_vX_cmd_dispatch.c:69-120): allocates the per-job LOCAL_STORAGE
descriptor, then the WLS block when the shader declares WLS, grows the
per-command-buffer TLS maximum, and lazily allocates the command-buffer
TLS descriptor.  Returns the per-job descriptor's GPU address, or 0 on
any allocation failure. -/
def cmd_dispatch_prepare_tls (phys : PhysDev) (c : CmdBuffer) (shader : Shader)
    (dim : Dim3) (indirect : Bool) : Nat × CmdBuffer :=
  let t := alloc c LOCAL_STORAGE_DESC_SIZE LOCAL_STORAGE_DESC_SIZE
  if t.1 = 0 then t
  else
    let w := tls_wls_alloc phys shader dim indirect t.2
    if w.1 = 0 then (0, w.2)
    else
      let d := tls_desc_step (tls_grow shader w.2)
      if d.1 then (t.1, d.2) else (0, d.2)

/-- Append one instruction to the compute subqueue's stream. -/
def emit (c : CmdBuffer) (i : Instr) : CmdBuffer :=
  { c with stream := c.stream ++ [i] }

/-- Append a list of instructions to the compute subqueue's stream. -/
def emits (c : CmdBuffer) (is : List Instr) : CmdBuffer :=
  { c with stream := c.stream ++ is }

/-- Copy of the global TLS pointer into the per-job TSD
(panvk_vX_cmd_dispatch.c:188-195): load-then-store sequence through
scratch registers, followed by a store flush. -/
def tls_copy_instrs (tls_desc_gpu tsd : Nat) : List Instr :=
  [ .scratchMove64 0 tls_desc_gpu,
    .scratchLoad64 2 0 8,
    .scratchMove64 0 tsd,
    .scratchStore64 2 0 8,
    .flushStores ]

/-- Synchronization epilogue (panvk_vX_cmd_dispatch.c:305-345): on v11+
hardware a single indirectly deferred `cs_sync64_add`; on earlier
generations a `cs_match` over the five scoreboard-iteration slots, each
case adding 1 to the compute syncobj deferred on that slot's wait. -/
def sync_epilogue (phys : PhysDev) : List Instr :=
  if 11 ≤ phys.arch then
    [ .loadCtx64 0 SYNCOBJS_OFFSET,
      .add64 0 0 (SUBQUEUE_COMPUTE * SYNC64_SIZE),
      .scratchMove64 2 1,
      .syncAdd64 2 0 .indirect ]
  else
    [ .loadCtxTuple 0 3 7 SYNCOBJS_OFFSET,
      .add64 0 0 (SUBQUEUE_COMPUTE * SYNC64_SIZE),
      .scratchMove64 4 1,
      .matchBegin 2 3,
      .caseBegin 0, .syncAdd64 4 0 (.iterWait 0),
      .caseBegin 1, .syncAdd64 4 0 (.iterWait 1),
      .caseBegin 2, .syncAdd64 4 0 (.iterWait 2),
      .caseBegin 3, .syncAdd64 4 0 (.iterWait 3),
      .caseBegin 4, .syncAdd64 4 0 (.iterWait 4) ]

/-- Dispatch request: direct workgroup counts plus base, or an indirect
buffer GPU address (indirect iff the address is nonzero, matching
panvk_vX_cmd_dispatch.c:146). -/
structure DispatchInfo where
  wg_base : Dim3
  direct_wg_count : Dim3
  indirect_buffer_dev_addr : Nat
  deriving DecidableEq, Repr

/-- Conditionally emitted instruction block (`if (...) cs_...` in the C
emitter). -/
def optInstrs (b : Bool) (l : List Instr) : List Instr :=
  if b then l else []

@[simp]
theorem mem_optInstrs (x : Instr) (b : Bool) (l : List Instr) :
    x ∈ optInstrs b l ↔ b = true ∧ x ∈ l := by
  cases b <;> simp [optInstrs]

@[simp]
theorem countP_optInstrs (p : Instr → Bool) (b : Bool) (l : List Instr) :
    (optInstrs b l).countP p = if b then l.countP p else 0 := by
  cases b <;> simp [optInstrs]

/-- Register-setup instructions of the `cs_update_compute_ctx` block
(panvk_vX_cmd_dispatch.c:197-277), reading the post-allocation state `c`:
SRT when shader or descriptor state is dirty, FAU when push uniforms are
dirty, SPD when the shader is dirty, then TSD, global attribute offset,
packed workgroup size, zero job offsets, and the job-size registers —
loaded from the indirect buffer (plus sysval stores for the
`num_work_groups` components the shader reads) for indirect dispatch,
moved as immediates for direct dispatch. -/
def dispatch_ctx_instrs (c : CmdBuffer) (shader : Shader) (tsd : Nat)
    (info : DispatchInfo) (indirect : Bool) : List Instr :=
  optInstrs (c.dirty_cs || c.dirty_desc_state)
    [Instr.move64 .SRT_0 c.res_table] ++
  optInstrs c.dirty_push_uniforms
    [Instr.move64 .FAU_0 (fau_ptr c.push_uniforms shader.fau_total_count)] ++
  optInstrs c.dirty_cs [Instr.move64 .SPD_0 shader.spd] ++
  [ .move64 .TSD_0 tsd,
    .move32 .GLOBAL_ATTRIBUTE_OFFSET 0,
    .move32 .WG_SIZE (pack_wg_size shader.local_size),
    .move32 .JOB_OFFSET_X 0,
    .move32 .JOB_OFFSET_Y 0,
    .move32 .JOB_OFFSET_Z 0 ] ++
  (if indirect then
    [ .scratchMove64 0 info.indirect_buffer_dev_addr,
      .loadTupleSR .JOB_SIZE_X 3 0 7 0,
      .scratchMove64 0 c.push_uniforms ] ++
    optInstrs shader.uses_num_wg_x
      [Instr.storeSR32 .JOB_SIZE_X 0 shader.sysval_off_x] ++
    optInstrs shader.uses_num_wg_y
      [Instr.storeSR32 .JOB_SIZE_Y 0 shader.sysval_off_y] ++
    optInstrs shader.uses_num_wg_z
      [Instr.storeSR32 .JOB_SIZE_Z 0 shader.sysval_off_z] ++
    [Instr.flushStores]
   else
    [ .move32 .JOB_SIZE_X info.direct_wg_count.x,
      .move32 .JOB_SIZE_Y info.direct_wg_count.y,
      .move32 .JOB_SIZE_Z info.direct_wg_count.z ])

/-- Full emission phase of one dispatch (panvk_vX_cmd_dispatch.c:186-345):
TLS-pointer copy when the shader declares TLS, the compute-context
register setup, the next-iteration scoreboard selection, the run-compute
instruction (X axis with the per-task workgroup increment for indirect,
`calculate_task_axis_and_increment` for direct), and the synchronization
epilogue. -/
def dispatch_emit_instrs (phys : PhysDev) (c : CmdBuffer) (shader : Shader)
    (tsd : Nat) (info : DispatchInfo) (indirect : Bool)
    (wg_per_task : Nat) : List Instr :=
  optInstrs (shader.tls_size != 0) (tls_copy_instrs c.tls_desc_gpu tsd) ++
  dispatch_ctx_instrs c shader tsd info indirect ++
  [Instr.nextIterSB] ++
  (if indirect then [Instr.runCompute wg_per_task TASK_AXIS_X]
   else [Instr.runCompute (phys.taskAxisIncrement shader).2
          (phys.taskAxisIncrement shader).1]) ++
  sync_epilogue phys

/-- Observational outcome of a dispatch call: skipped because no shader is
bound, aborted by an `OUT_OF_DEVICE_MEMORY` allocation failure, or fully
emitted. -/
inductive Outcome
  | noShader
  | oom
  | success
  deriving DecidableEq, Repr

/-- Allocation/rebuild phase of `cmd_dispatch`
(panvk_vX_cmd_dispatch.c:159-184): the push-descriptor preparation when
the descriptor state or the shader is dirty, the driver-set rebuild, the
push-uniform rebuild, and the resource-table rebuild when the shader or
the descriptor state is dirty (re-reading the dirty bits that
`prepare_driver_set` may have set); each step aborts the phase on
`OUT_OF_DEVICE_MEMORY`. -/
def dispatch_alloc_phase (c : CmdBuffer) : VkResult × CmdBuffer :=
  let p1 :=
    if c.dirty_desc_state || c.dirty_cs then cmd_prepare_push_descs c
    else (VkResult.success, c)
  if p1.1 ≠ VkResult.success then p1
  else
    let p2 := prepare_driver_set p1.2
    if p2.1 ≠ VkResult.success then p2
    else
      let p3 := cmd_prepare_push_uniforms p2.2
      if p3.1 ≠ VkResult.success then p3
      else if p3.2.dirty_cs || p3.2.dirty_desc_state then
        cmd_prepare_shader_res_table p3.2
      else (VkResult.success, p3.2)

/-- Embeds `cmd_dispatch` (panvk_vX_cmd_dispatch.c:122-349), paired with
its observational outcome.  Mirrors the C control flow: early return on a
null shader; TLS/WLS preparation; push-descriptor, driver-set,
push-uniform and resource-table rebuilds guarded by the dirty aspects,
each aborting the dispatch on allocation failure; then the emission
phase, the sync-point increment, and the dirty-bit clear.
(`cmd_prepare_dispatch_sysvals` updates CPU-side sysval staging only — no
allocation, no dirty-flag change — and is not modelled further.) -/
def cmd_dispatch_aux (phys : PhysDev) (c : CmdBuffer) (info : DispatchInfo) :
    CmdBuffer × Outcome :=
  let shader := c.shader
  if shader.spd = 0 then (c, .noShader)
  else
    let dim := info.direct_wg_count
    let indirect := info.indirect_buffer_dev_addr != 0
    let t := cmd_dispatch_prepare_tls phys c shader dim indirect
    if t.1 = 0 then (t.2, .oom)
    else
      let wg_per_task :=
        if indirect then phys.calcWgPerTask shader.local_size else 0
      let p := dispatch_alloc_phase t.2
      if p.1 ≠ VkResult.success then (p.2, .oom)
      else
        let ce := emits p.2
          (dispatch_emit_instrs phys p.2 shader t.1 info indirect wg_per_task)
        let cs := { ce with relative_sync_point := ce.relative_sync_point + 1 }
        (clear_dirty_after_dispatch cs, .success)

/-- State after `cmd_dispatch`, discarding the outcome annotation. -/
def cmd_dispatch (phys : PhysDev) (c : CmdBuffer) (info : DispatchInfo) :
    CmdBuffer :=
  (cmd_dispatch_aux phys c info).1

/-- Embeds `panvk_per_arch(CmdDispatchBase)`
(panvk_vX_cmd_dispatch.c:351-372): builds a direct dispatch request and
hands it to `cmd_dispatch`. -/
def CmdDispatchBase (phys : PhysDev) (c : CmdBuffer)
    (baseX baseY baseZ cntX cntY cntZ : Nat) : CmdBuffer :=
  cmd_dispatch phys c
    { wg_base := ⟨baseX, baseY, baseZ⟩,
      direct_wg_count := ⟨cntX, cntY, cntZ⟩,
      indirect_buffer_dev_addr := 0 }

/-- Embeds `panvk_per_arch(CmdDispatchIndirect)`
(panvk_vX_cmd_dispatch.c:374-393): builds an indirect dispatch request
from the buffer's GPU address and hands it to `cmd_dispatch`. -/
def CmdDispatchIndirect (phys : PhysDev) (c : CmdBuffer)
    (buffer_gpu : Nat) : CmdBuffer :=
  cmd_dispatch phys c
    { wg_base := ⟨0, 0, 0⟩,
      direct_wg_count := ⟨0, 0, 0⟩,
      indirect_buffer_dev_addr := buffer_gpu }

/-- Embeds `panvk_per_arch(dispatch_precomp)` (internal precompiled-kernel
dispatch, `src/unnamed/part_001`): allocates the push-uniform block
(asserted in C — modelled as an abort outcome on failure), prepares TLS
with the direct grid dimensions, emits the TLS copy, the compute-context
registers (null SRT, FAU pointer with `DIV_ROUND_UP(size, 8)` count, SPD,
TSD, workgroup size, zero offsets, immediate job sizes), the scoreboard
selection, run-compute, and the sync epilogue; increments the compute
sync point and re-marks all three compute dirty aspects. -/
def dispatch_precomp (phys : PhysDev) (c : CmdBuffer) (shader : Shader)
    (grid : Dim3) (data_size : Nat) : CmdBuffer × Outcome :=
  let pu := alloc c (PRECOMP_SYSVALS_SIZE + data_size) 16
  if pu.1 = 0 then (pu.2, .oom)
  else
    let t := cmd_dispatch_prepare_tls phys pu.2 shader grid false
    if t.1 = 0 then (t.2, .oom)
    else
      let fau_count := (PRECOMP_SYSVALS_SIZE + data_size + 7) / 8
      let ce := emits t.2
        (optInstrs (shader.tls_size != 0)
          (tls_copy_instrs t.2.tls_desc_gpu t.1) ++
         [ .move64 .SRT_0 0,
           .move64 .FAU_0 (fau_ptr pu.1 fau_count),
           .move64 .SPD_0 shader.spd,
           .move64 .TSD_0 t.1,
           .move32 .GLOBAL_ATTRIBUTE_OFFSET 0,
           .move32 .WG_SIZE (pack_wg_size shader.local_size),
           .move32 .JOB_OFFSET_X 0,
           .move32 .JOB_OFFSET_Y 0,
           .move32 .JOB_OFFSET_Z 0,
           .move32 .JOB_SIZE_X grid.x,
           .move32 .JOB_SIZE_Y grid.y,
           .move32 .JOB_SIZE_Z grid.z,
           .nextIterSB,
           .runCompute (phys.taskAxisIncrement shader).2
             (phys.taskAxisIncrement shader).1 ] ++
         sync_epilogue phys)
      let cs := { ce with relative_sync_point := ce.relative_sync_point + 1 }
      ({ cs with dirty_cs := true, dirty_desc_state := true,
                 dirty_push_uniforms := true }, .success)

/-- Recorded command-buffer operation affecting the compute dispatch
path: binding a compute shader (modelled from the spec: the bind call
marks the shader aspect dirty via `mark_dirty`), an application dispatch,
or an internal precompiled-kernel dispatch. -/
inductive CmdStep
  | bindShader (s : Shader)
  | dispatch (info : DispatchInfo)
  | precomp (shader : Shader) (grid : Dim3) (data_size : Nat)

/-- Run one command-buffer step. -/
def run_step (phys : PhysDev) (c : CmdBuffer) : CmdStep → CmdBuffer
  | .bindShader s => { c with shader := s, dirty_cs := true }
  | .dispatch info => (cmd_dispatch_aux phys c info).1
  | .precomp sh g d => (dispatch_precomp phys c sh g d).1

/-- Run a sequence of command-buffer steps. -/
def run_steps (phys : PhysDev) (c : CmdBuffer) : List CmdStep → CmdBuffer
  | [] => c
  | s :: rest => run_steps phys (run_step phys c s) rest

/-- Contribution of one step to the compute subqueue's relative sync
point: 1 for a successful dispatch (application or precompiled), 0
otherwise. -/
def step_sync_delta (phys : PhysDev) (c : CmdBuffer) : CmdStep → Nat
  | .dispatch info =>
      if (cmd_dispatch_aux phys c info).2 = .success then 1 else 0
  | .precomp sh g d =>
      if (dispatch_precomp phys c sh g d).2 = .success then 1 else 0
  | .bindShader _ => 0

/-- Number of dispatch steps (application or precompiled) in the sequence
that complete successfully. -/
def count_successes (phys : PhysDev) (c : CmdBuffer) : List CmdStep → Nat
  | [] => 0
  | s :: rest =>
      step_sync_delta phys c s + count_successes phys (run_step phys c s) rest

/-- Number of dispatch steps (application or precompiled) in the
sequence, successful or not. -/
def dispatch_count : List CmdStep → Nat
  | [] => 0
  | .dispatch _ :: rest => 1 + dispatch_count rest
  | .precomp _ _ _ :: rest => 1 + dispatch_count rest
  | .bindShader _ :: rest => dispatch_count rest

/-- All dispatch steps of the sequence complete successfully. -/
def steps_all_succeed (phys : PhysDev) (c : CmdBuffer) : List CmdStep → Bool
  | [] => true
  | s :: rest =>
      (match s with
       | .dispatch info => (cmd_dispatch_aux phys c info).2 == .success
       | .precomp sh g d => (dispatch_precomp phys c sh g d).2 == .success
       | .bindShader _ => true) &&
      steps_all_succeed phys (run_step phys c s) rest

/-- Declared TLS sizes of the shaders dispatched by the successful
dispatch steps of the sequence, in order. -/
def dispatched_tls_sizes (phys : PhysDev) (c : CmdBuffer) :
    List CmdStep → List Nat
  | [] => []
  | s :: rest =>
      (match s with
       | .dispatch info =>
           if (cmd_dispatch_aux phys c info).2 = .success then
             [c.shader.tls_size] else []
       | .precomp sh g d =>
           if (dispatch_precomp phys c sh g d).2 = .success then
             [sh.tls_size] else []
       | .bindShader _ => []) ++
      dispatched_tls_sizes phys (run_step phys c s) rest

/-- Concrete shader used by the witnesses: bound program, nonzero TLS and
WLS, 4×2×1 workgroups, two dynamic buffers, reads `num_work_groups.x`. -/
def shader0 : Shader :=
  { spd := 100, tls_size := 16, wls_size := 8,
    local_size := ⟨4, 2, 1⟩, dyn_bufs_count := 2, fau_total_count := 5,
    uses_num_wg_x := true, uses_num_wg_y := false, uses_num_wg_z := false,
    sysval_off_x := 0, sysval_off_y := 4, sysval_off_z := 8,
    push_descs_size := 64, push_uniforms_size := 48, res_table_size := 96 }

/-- Concrete physical device used by the witnesses (v11-generation, 10
cores, simple topology functions). -/
def phys0 : PhysDev :=
  { arch := 11, core_id_range := 10,
    calcWlsInstances := fun _ d =>
      match d with
      | none => 64
      | some dm => min 64 (dm.x * dm.y * dm.z),
    calcWgPerTask := fun _ => 4,
    taskAxisIncrement := fun _ => (TASK_AXIS_X, 7) }

/-- Concrete command buffer used by the witnesses: everything dirty, no
TLS descriptor yet, and an allocation oracle with plenty of addresses. -/
def cmdbuf0 : CmdBuffer :=
  { shader := shader0, dirty_cs := true, dirty_desc_state := true,
    dirty_push_uniforms := true, tls_info_size := 0, tls_desc_gpu := 0,
    push_uniforms := 0, push_descs := 0, res_table := 0,
    driver_set_addr := 0, driver_set_size := 0, driver_set_entries := [],
    relative_sync_point := 0,
    allocs := [4096, 8192, 12288, 16384, 20480, 24576, 28672, 32768,
               36864, 40960, 45056, 49152],
    allocLog := [], stream := [] }

/-- Concrete direct dispatch request used by the witnesses. -/
def infoDirect0 : DispatchInfo :=
  { wg_base := ⟨0, 0, 0⟩, direct_wg_count := ⟨4, 1, 1⟩,
    indirect_buffer_dev_addr := 0 }

/-- Concrete indirect dispatch request used by the witnesses. -/
def infoIndirect0 : DispatchInfo :=
  { wg_base := ⟨0, 0, 0⟩, direct_wg_count := ⟨0, 0, 0⟩,
    indirect_buffer_dev_addr := 777216 }

example : (cmd_dispatch_aux phys0 cmdbuf0 infoDirect0).2 = .success := by decide

example : (cmd_dispatch_aux phys0 cmdbuf0 infoIndirect0).2 = .success := by decide

/-! ### Frame lemmas for the allocation-phase helpers -/

@[simp]
theorem alloc_fst (c : CmdBuffer) (size align : Nat) :
    (alloc c size align).1 = c.allocs.headD 0 := rfl

@[simp]
theorem alloc_snd (c : CmdBuffer) (size align : Nat) :
    (alloc c size align).2 =
      { c with allocs := c.allocs.tail,
               allocLog := c.allocLog ++ [⟨size, align, c.allocs.headD 0⟩] } :=
  rfl

@[simp]
theorem emit_eq (c : CmdBuffer) (i : Instr) :
    emit c i = { c with stream := c.stream ++ [i] } := rfl

@[simp]
theorem emits_eq (c : CmdBuffer) (l : List Instr) :
    emits c l = { c with stream := c.stream ++ l } := rfl

@[simp]
theorem clear_dirty_eq (c : CmdBuffer) :
    clear_dirty_after_dispatch c =
      { c with dirty_cs := false, dirty_desc_state := false,
               dirty_push_uniforms := false } := rfl

/-- Fields preserved by `cmd_prepare_push_descs`. -/
theorem push_descs_frame (c : CmdBuffer) :
    (cmd_prepare_push_descs c).2.shader = c.shader ∧
    (cmd_prepare_push_descs c).2.stream = c.stream ∧
    (cmd_prepare_push_descs c).2.relative_sync_point = c.relative_sync_point ∧
    (cmd_prepare_push_descs c).2.dirty_cs = c.dirty_cs ∧
    (cmd_prepare_push_descs c).2.dirty_desc_state = c.dirty_desc_state ∧
    (cmd_prepare_push_descs c).2.dirty_push_uniforms = c.dirty_push_uniforms ∧
    (cmd_prepare_push_descs c).2.tls_info_size = c.tls_info_size ∧
    (cmd_prepare_push_descs c).2.tls_desc_gpu = c.tls_desc_gpu ∧
    (cmd_prepare_push_descs c).2.push_uniforms = c.push_uniforms ∧
    (cmd_prepare_push_descs c).2.res_table = c.res_table ∧
    (cmd_prepare_push_descs c).2.driver_set_entries = c.driver_set_entries ∧
    (cmd_prepare_push_descs c).2.driver_set_size = c.driver_set_size := by
  simp only [cmd_prepare_push_descs]
  split <;> simp

/-- Fields preserved by `cmd_prepare_push_uniforms` (everything relevant
except the push-uniform pointer itself). -/
theorem push_uniforms_frame (c : CmdBuffer) :
    (cmd_prepare_push_uniforms c).2.shader = c.shader ∧
    (cmd_prepare_push_uniforms c).2.stream = c.stream ∧
    (cmd_prepare_push_uniforms c).2.relative_sync_point = c.relative_sync_point ∧
    (cmd_prepare_push_uniforms c).2.dirty_cs = c.dirty_cs ∧
    (cmd_prepare_push_uniforms c).2.dirty_desc_state = c.dirty_desc_state ∧
    (cmd_prepare_push_uniforms c).2.dirty_push_uniforms = c.dirty_push_uniforms ∧
    (cmd_prepare_push_uniforms c).2.tls_info_size = c.tls_info_size ∧
    (cmd_prepare_push_uniforms c).2.tls_desc_gpu = c.tls_desc_gpu ∧
    (cmd_prepare_push_uniforms c).2.res_table = c.res_table ∧
    (cmd_prepare_push_uniforms c).2.driver_set_entries = c.driver_set_entries ∧
    (cmd_prepare_push_uniforms c).2.driver_set_size = c.driver_set_size := by
  simp only [cmd_prepare_push_uniforms]
  split <;> [skip; simp]
  split <;> simp

/-- When the push-uniforms aspect is clean, `cmd_prepare_push_uniforms`
is the identity. -/
theorem push_uniforms_clean (c : CmdBuffer)
    (h : c.dirty_push_uniforms = false) :
    cmd_prepare_push_uniforms c = (.success, c) := by
  simp [cmd_prepare_push_uniforms, h]

/-- Fields preserved by `cmd_prepare_shader_res_table` (everything
relevant except the resource-table pointer itself). -/
theorem res_table_frame (c : CmdBuffer) :
    (cmd_prepare_shader_res_table c).2.shader = c.shader ∧
    (cmd_prepare_shader_res_table c).2.stream = c.stream ∧
    (cmd_prepare_shader_res_table c).2.relative_sync_point = c.relative_sync_point ∧
    (cmd_prepare_shader_res_table c).2.dirty_cs = c.dirty_cs ∧
    (cmd_prepare_shader_res_table c).2.dirty_desc_state = c.dirty_desc_state ∧
    (cmd_prepare_shader_res_table c).2.dirty_push_uniforms = c.dirty_push_uniforms ∧
    (cmd_prepare_shader_res_table c).2.tls_info_size = c.tls_info_size ∧
    (cmd_prepare_shader_res_table c).2.tls_desc_gpu = c.tls_desc_gpu ∧
    (cmd_prepare_shader_res_table c).2.push_uniforms = c.push_uniforms ∧
    (cmd_prepare_shader_res_table c).2.driver_set_entries = c.driver_set_entries ∧
    (cmd_prepare_shader_res_table c).2.driver_set_size = c.driver_set_size := by
  simp only [cmd_prepare_shader_res_table]
  split <;> simp

/-- Fields preserved by `prepare_driver_set` (everything relevant except
the driver-set table and the descriptor-state dirty bit). -/
theorem driver_set_frame (c : CmdBuffer) :
    (prepare_driver_set c).2.shader = c.shader ∧
    (prepare_driver_set c).2.stream = c.stream ∧
    (prepare_driver_set c).2.relative_sync_point = c.relative_sync_point ∧
    (prepare_driver_set c).2.dirty_cs = c.dirty_cs ∧
    (prepare_driver_set c).2.dirty_push_uniforms = c.dirty_push_uniforms ∧
    (prepare_driver_set c).2.tls_info_size = c.tls_info_size ∧
    (prepare_driver_set c).2.tls_desc_gpu = c.tls_desc_gpu ∧
    (prepare_driver_set c).2.push_uniforms = c.push_uniforms ∧
    (prepare_driver_set c).2.res_table = c.res_table := by
  simp only [prepare_driver_set]
  split <;> [simp; skip]
  split <;> simp

/-- When both the shader and the descriptor-state aspects are clean,
`prepare_driver_set` is the identity. -/
theorem driver_set_clean (c : CmdBuffer)
    (h : (c.dirty_cs || c.dirty_desc_state) = false) :
    prepare_driver_set c = (.success, c) := by
  simp [prepare_driver_set, h]

/-- The descriptor-state dirty bit never transitions dirty → clean across
`prepare_driver_set`. -/
theorem driver_set_desc_mono (c : CmdBuffer)
    (h : c.dirty_desc_state = true) :
    (prepare_driver_set c).2.dirty_desc_state = true := by
  simp only [prepare_driver_set]
  split <;> [simpa using h; skip]
  split <;> simp [h]

/-- On success, `prepare_driver_set` leaves the descriptor-state dirty
bit equal to `dirty_desc_state || dirty_cs`. -/
theorem driver_set_success_desc (c : CmdBuffer)
    (h : (prepare_driver_set c).1 = .success) :
    (prepare_driver_set c).2.dirty_desc_state =
      (c.dirty_desc_state || c.dirty_cs) := by
  by_cases hd : (c.dirty_cs || c.dirty_desc_state) = false
  · rcases Bool.or_eq_false_iff.mp hd with ⟨h1, h2⟩
    simp [prepare_driver_set, hd, h1, h2]
  · rw [Bool.not_eq_false] at hd
    by_cases ha : c.allocs.headD 0 = 0 <;>
      cases hcs : c.dirty_cs <;> cases hds : c.dirty_desc_state <;>
        simp_all [prepare_driver_set]

/-- Fields preserved by the WLS allocation step. -/
theorem tls_wls_alloc_frame (phys : PhysDev) (sh : Shader) (dim : Dim3)
    (ind : Bool) (c : CmdBuffer) :
    (tls_wls_alloc phys sh dim ind c).2.shader = c.shader ∧
    (tls_wls_alloc phys sh dim ind c).2.stream = c.stream ∧
    (tls_wls_alloc phys sh dim ind c).2.relative_sync_point =
      c.relative_sync_point ∧
    (tls_wls_alloc phys sh dim ind c).2.dirty_cs = c.dirty_cs ∧
    (tls_wls_alloc phys sh dim ind c).2.dirty_desc_state =
      c.dirty_desc_state ∧
    (tls_wls_alloc phys sh dim ind c).2.dirty_push_uniforms =
      c.dirty_push_uniforms ∧
    (tls_wls_alloc phys sh dim ind c).2.push_uniforms = c.push_uniforms ∧
    (tls_wls_alloc phys sh dim ind c).2.res_table = c.res_table ∧
    (tls_wls_alloc phys sh dim ind c).2.driver_set_entries =
      c.driver_set_entries ∧
    (tls_wls_alloc phys sh dim ind c).2.driver_set_size =
      c.driver_set_size ∧
    (tls_wls_alloc phys sh dim ind c).2.tls_info_size = c.tls_info_size ∧
    (tls_wls_alloc phys sh dim ind c).2.tls_desc_gpu = c.tls_desc_gpu := by
  simp only [tls_wls_alloc]
  split <;> simp

/-- Fields preserved by the TLS-descriptor step, and its effect on the
tracked TLS size. -/
theorem tls_desc_step_frame (c : CmdBuffer) :
    (tls_desc_step c).2.shader = c.shader ∧
    (tls_desc_step c).2.stream = c.stream ∧
    (tls_desc_step c).2.relative_sync_point = c.relative_sync_point ∧
    (tls_desc_step c).2.dirty_cs = c.dirty_cs ∧
    (tls_desc_step c).2.dirty_desc_state = c.dirty_desc_state ∧
    (tls_desc_step c).2.dirty_push_uniforms = c.dirty_push_uniforms ∧
    (tls_desc_step c).2.push_uniforms = c.push_uniforms ∧
    (tls_desc_step c).2.res_table = c.res_table ∧
    (tls_desc_step c).2.driver_set_entries = c.driver_set_entries ∧
    (tls_desc_step c).2.driver_set_size = c.driver_set_size ∧
    (tls_desc_step c).2.tls_info_size = c.tls_info_size := by
  simp only [tls_desc_step]
  repeat' split
  all_goals simp

/-- Fields preserved by `cmd_dispatch_prepare_tls` (everything relevant
except the TLS bookkeeping and the allocator), and monotonicity of the
tracked TLS size. -/
theorem prepare_tls_frame (phys : PhysDev) (c : CmdBuffer) (sh : Shader)
    (dim : Dim3) (ind : Bool) :
    (cmd_dispatch_prepare_tls phys c sh dim ind).2.shader = c.shader ∧
    (cmd_dispatch_prepare_tls phys c sh dim ind).2.stream = c.stream ∧
    (cmd_dispatch_prepare_tls phys c sh dim ind).2.relative_sync_point =
      c.relative_sync_point ∧
    (cmd_dispatch_prepare_tls phys c sh dim ind).2.dirty_cs = c.dirty_cs ∧
    (cmd_dispatch_prepare_tls phys c sh dim ind).2.dirty_desc_state =
      c.dirty_desc_state ∧
    (cmd_dispatch_prepare_tls phys c sh dim ind).2.dirty_push_uniforms =
      c.dirty_push_uniforms ∧
    (cmd_dispatch_prepare_tls phys c sh dim ind).2.push_uniforms =
      c.push_uniforms ∧
    (cmd_dispatch_prepare_tls phys c sh dim ind).2.res_table = c.res_table ∧
    (cmd_dispatch_prepare_tls phys c sh dim ind).2.driver_set_entries =
      c.driver_set_entries ∧
    (cmd_dispatch_prepare_tls phys c sh dim ind).2.driver_set_size =
      c.driver_set_size ∧
    c.tls_info_size ≤
      (cmd_dispatch_prepare_tls phys c sh dim ind).2.tls_info_size := by
  have hw := tls_wls_alloc_frame phys sh dim ind
    (alloc c LOCAL_STORAGE_DESC_SIZE LOCAL_STORAGE_DESC_SIZE).2
  have hd := tls_desc_step_frame
    (tls_grow sh (tls_wls_alloc phys sh dim ind
      (alloc c LOCAL_STORAGE_DESC_SIZE LOCAL_STORAGE_DESC_SIZE).2).2)
  simp only [cmd_dispatch_prepare_tls]
  repeat' split
  all_goals simp_all [tls_grow, Nat.le_max_right]

/-- On success (nonzero returned TSD address), the tracked TLS size is
exactly the maximum of the shader's declared TLS size and the previous
tracked value. -/
theorem prepare_tls_success_tls (phys : PhysDev) (c : CmdBuffer) (sh : Shader)
    (dim : Dim3) (ind : Bool)
    (h : (cmd_dispatch_prepare_tls phys c sh dim ind).1 ≠ 0) :
    (cmd_dispatch_prepare_tls phys c sh dim ind).2.tls_info_size =
      max sh.tls_size c.tls_info_size := by
  have hw := tls_wls_alloc_frame phys sh dim ind
    (alloc c LOCAL_STORAGE_DESC_SIZE LOCAL_STORAGE_DESC_SIZE).2
  have hd := tls_desc_step_frame
    (tls_grow sh (tls_wls_alloc phys sh dim ind
      (alloc c LOCAL_STORAGE_DESC_SIZE LOCAL_STORAGE_DESC_SIZE).2).2)
  simp only [cmd_dispatch_prepare_tls] at h ⊢
  repeat' split
  all_goals simp_all [tls_grow]

/-- Fields preserved by the allocation/rebuild phase of `cmd_dispatch`,
plus dirty-aspect monotonicity for the descriptor-state bit. -/
theorem alloc_phase_frame (c : CmdBuffer) :
    (dispatch_alloc_phase c).2.shader = c.shader ∧
    (dispatch_alloc_phase c).2.stream = c.stream ∧
    (dispatch_alloc_phase c).2.relative_sync_point = c.relative_sync_point ∧
    (dispatch_alloc_phase c).2.dirty_cs = c.dirty_cs ∧
    (dispatch_alloc_phase c).2.dirty_push_uniforms = c.dirty_push_uniforms ∧
    (dispatch_alloc_phase c).2.tls_info_size = c.tls_info_size ∧
    (dispatch_alloc_phase c).2.tls_desc_gpu = c.tls_desc_gpu ∧
    (c.dirty_desc_state = true →
      (dispatch_alloc_phase c).2.dirty_desc_state = true) := by
  obtain ⟨a1, a2, a3, a4, a5, a6, a7, a8, a9, a10, a11, a12⟩ :=
    push_descs_frame c
  simp only [dispatch_alloc_phase]
  by_cases g1 : (c.dirty_desc_state || c.dirty_cs) = true
  · simp only [g1, if_true]
    by_cases e1 : (cmd_prepare_push_descs c).1 = VkResult.success
    · simp only [e1, ne_eq, not_true_eq_false, if_false]
      obtain ⟨d1, d2, d3, d4, d5, d6, d7, d8, d9⟩ :=
        driver_set_frame (cmd_prepare_push_descs c).2
      by_cases e2 : (prepare_driver_set (cmd_prepare_push_descs c).2).1 =
          VkResult.success
      · simp only [e2, ne_eq, not_true_eq_false, if_false]
        obtain ⟨u1, u2, u3, u4, u5, u6, u7, u8, u10, u11, u12⟩ :=
          push_uniforms_frame (prepare_driver_set (cmd_prepare_push_descs c).2).2
        by_cases e3 : (cmd_prepare_push_uniforms
            (prepare_driver_set (cmd_prepare_push_descs c).2).2).1 =
            VkResult.success
        · simp only [e3, ne_eq, not_true_eq_false, if_false]
          obtain ⟨r1, r2, r3, r4, r5, r6, r7, r8, r9, r10, r11⟩ :=
            res_table_frame (cmd_prepare_push_uniforms
              (prepare_driver_set (cmd_prepare_push_descs c).2).2).2
          by_cases g2 : ((cmd_prepare_push_uniforms
              (prepare_driver_set (cmd_prepare_push_descs c).2).2).2.dirty_cs ||
            (cmd_prepare_push_uniforms
              (prepare_driver_set (cmd_prepare_push_descs c).2).2).2.dirty_desc_state) = true
          · simp only [g2, if_true]
            refine ⟨?_, ?_, ?_, ?_, ?_, ?_, ?_, ?_⟩ <;>
              simp_all [driver_set_desc_mono]
          · simp only [Bool.not_eq_true] at g2
            simp only [g2, Bool.false_eq_true, if_false]
            refine ⟨?_, ?_, ?_, ?_, ?_, ?_, ?_, ?_⟩ <;>
              simp_all [driver_set_desc_mono]
        · simp only [e3, ne_eq, not_false_eq_true, if_true]
          refine ⟨?_, ?_, ?_, ?_, ?_, ?_, ?_, ?_⟩ <;>
            simp_all [driver_set_desc_mono]
      · simp only [e2, ne_eq, not_false_eq_true, if_true]
        refine ⟨?_, ?_, ?_, ?_, ?_, ?_, ?_, ?_⟩ <;>
          simp_all [driver_set_desc_mono]
    · simp only [e1, ne_eq, not_false_eq_true, if_true]
      exact ⟨a1, a2, a3, a4, a6, a7, a8, fun h => by rw [a5, h]⟩
  · simp only [Bool.not_eq_true] at g1
    simp only [g1, Bool.false_eq_true, if_false]
    rcases Bool.or_eq_false_iff.mp g1 with ⟨hds, hcs⟩
    have hclean := driver_set_clean c (by simp [hds, hcs])
    simp only [ne_eq, not_true_eq_false, if_false, hclean]
    obtain ⟨u1, u2, u3, u4, u5, u6, u7, u8, u10, u11, u12⟩ :=
      push_uniforms_frame c
    by_cases e3 : (cmd_prepare_push_uniforms c).1 = VkResult.success
    · simp only [e3, ne_eq, not_true_eq_false, if_false]
      obtain ⟨r1, r2, r3, r4, r5, r6, r7, r8, r9, r10, r11⟩ :=
        res_table_frame (cmd_prepare_push_uniforms c).2
      by_cases g2 : ((cmd_prepare_push_uniforms c).2.dirty_cs ||
          (cmd_prepare_push_uniforms c).2.dirty_desc_state) = true
      · simp only [g2, if_true]
        refine ⟨?_, ?_, ?_, ?_, ?_, ?_, ?_, ?_⟩ <;> simp_all
      · simp only [Bool.not_eq_true] at g2
        simp only [g2, Bool.false_eq_true, if_false]
        refine ⟨?_, ?_, ?_, ?_, ?_, ?_, ?_, ?_⟩ <;> simp_all
    · simp only [e3, ne_eq, not_false_eq_true, if_true]
      refine ⟨?_, ?_, ?_, ?_, ?_, ?_, ?_, ?_⟩ <;> simp_all

/-- On success, the allocation/rebuild phase leaves the descriptor-state
dirty bit equal to `dirty_desc_state || dirty_cs` (the driver-set rebuild
re-marks it whenever it runs). -/
theorem alloc_phase_success_desc (c : CmdBuffer)
    (h : (dispatch_alloc_phase c).1 = VkResult.success) :
    (dispatch_alloc_phase c).2.dirty_desc_state =
      (c.dirty_desc_state || c.dirty_cs) := by
  simp only [dispatch_alloc_phase] at h ⊢
  by_cases g1 : (c.dirty_desc_state || c.dirty_cs) = true
  · simp only [g1, if_true] at h ⊢
    by_cases e1 : (cmd_prepare_push_descs c).1 = VkResult.success
    · simp only [e1, ne_eq, not_true_eq_false, if_false] at h ⊢
      obtain ⟨a1, a2, a3, a4, a5, a6, a7, a8, a9, a10, a11, a12⟩ :=
        push_descs_frame c
      by_cases e2 : (prepare_driver_set (cmd_prepare_push_descs c).2).1 =
          VkResult.success
      · simp only [e2, ne_eq, not_true_eq_false, if_false] at h ⊢
        have hdesc := driver_set_success_desc (cmd_prepare_push_descs c).2 e2
        rw [a5, a4] at hdesc
        obtain ⟨u1, u2, u3, u4, u5, u6, u7, u8, u10, u11, u12⟩ :=
          push_uniforms_frame (prepare_driver_set (cmd_prepare_push_descs c).2).2
        by_cases e3 : (cmd_prepare_push_uniforms
            (prepare_driver_set (cmd_prepare_push_descs c).2).2).1 =
            VkResult.success
        · simp only [e3, ne_eq, not_true_eq_false, if_false] at h ⊢
          obtain ⟨r1, r2, r3, r4, r5, r6, r7, r8, r9, r10, r11⟩ :=
            res_table_frame (cmd_prepare_push_uniforms
              (prepare_driver_set (cmd_prepare_push_descs c).2).2).2
          split <;> simp_all
        · simp_all
      · simp_all
    · simp_all
  · simp only [Bool.not_eq_true] at g1
    rcases Bool.or_eq_false_iff.mp g1 with ⟨hds, hcs⟩
    have hclean := driver_set_clean c (by simp [hds, hcs])
    simp only [g1, Bool.false_eq_true, if_false, hclean, ne_eq,
      not_true_eq_false] at h ⊢
    obtain ⟨u1, u2, u3, u4, u5, u6, u7, u8, u10, u11, u12⟩ :=
      push_uniforms_frame c
    by_cases e3 : (cmd_prepare_push_uniforms c).1 = VkResult.success
    · simp only [e3, ne_eq, not_true_eq_false, if_false] at h ⊢
      obtain ⟨r1, r2, r3, r4, r5, r6, r7, r8, r9, r10, r11⟩ :=
        res_table_frame (cmd_prepare_push_uniforms c).2
      split <;> simp_all
    · simp_all

/-- Structure of a successful `cmd_dispatch`: there is a post-allocation
state `c'` (agreeing with `c` on the shader and on the shader/uniform
dirty bits, with the descriptor-state bit re-marked by the driver-set
rebuild) and a nonzero TSD address such that the result appends exactly
the emission-phase instructions computed from `c'`, increments the
compute sync point by one, clears all dirty aspects, and tracks the
maximum TLS size. -/
theorem cmd_dispatch_success_shape (phys : PhysDev) (c : CmdBuffer)
    (info : DispatchInfo)
    (h : (cmd_dispatch_aux phys c info).2 = .success) :
    ∃ c' tsd, tsd ≠ 0 ∧
      c'.shader = c.shader ∧
      c'.dirty_cs = c.dirty_cs ∧
      c'.dirty_push_uniforms = c.dirty_push_uniforms ∧
      c'.dirty_desc_state = (c.dirty_desc_state || c.dirty_cs) ∧
      (cmd_dispatch_aux phys c info).1.stream =
        c.stream ++ dispatch_emit_instrs phys c' c.shader tsd info
          (info.indirect_buffer_dev_addr != 0)
          (if info.indirect_buffer_dev_addr != 0 then
            phys.calcWgPerTask c.shader.local_size else 0) ∧
      (cmd_dispatch_aux phys c info).1.relative_sync_point =
        c.relative_sync_point + 1 ∧
      (cmd_dispatch_aux phys c info).1.dirty_cs = false ∧
      (cmd_dispatch_aux phys c info).1.dirty_desc_state = false ∧
      (cmd_dispatch_aux phys c info).1.dirty_push_uniforms = false ∧
      (cmd_dispatch_aux phys c info).1.tls_info_size =
        max c.shader.tls_size c.tls_info_size ∧
      (cmd_dispatch_aux phys c info).1.shader = c.shader := by
  simp only [cmd_dispatch_aux] at h ⊢
  by_cases h0 : c.shader.spd = 0
  · simp [h0] at h
  · simp only [h0, if_false] at h ⊢
    by_cases h1 : (cmd_dispatch_prepare_tls phys c c.shader
        info.direct_wg_count (info.indirect_buffer_dev_addr != 0)).1 = 0
    · simp [h1] at h
    · simp only [h1, if_false] at h ⊢
      obtain ⟨t1, t2, t3, t4, t5, t6, t7, t8, t9, t10, t11⟩ :=
        prepare_tls_frame phys c c.shader info.direct_wg_count
          (info.indirect_buffer_dev_addr != 0)
      have htls := prepare_tls_success_tls phys c c.shader
        info.direct_wg_count (info.indirect_buffer_dev_addr != 0) h1
      by_cases h2 : (dispatch_alloc_phase (cmd_dispatch_prepare_tls phys c
          c.shader info.direct_wg_count
          (info.indirect_buffer_dev_addr != 0)).2).1 = VkResult.success
      · simp only [h2, ne_eq, not_true_eq_false, if_false] at h ⊢
        obtain ⟨p1, p2, p3, p4, p5, p6, p7, p8⟩ :=
          alloc_phase_frame (cmd_dispatch_prepare_tls phys c c.shader
            info.direct_wg_count (info.indirect_buffer_dev_addr != 0)).2
        have hdesc := alloc_phase_success_desc (cmd_dispatch_prepare_tls phys
          c c.shader info.direct_wg_count
          (info.indirect_buffer_dev_addr != 0)).2 h2
        refine ⟨(dispatch_alloc_phase (cmd_dispatch_prepare_tls phys c
          c.shader info.direct_wg_count
          (info.indirect_buffer_dev_addr != 0)).2).2,
          (cmd_dispatch_prepare_tls phys c c.shader info.direct_wg_count
            (info.indirect_buffer_dev_addr != 0)).1,
          h1, ?_, ?_, ?_, ?_, ?_, ?_, ?_, ?_, ?_, ?_, ?_⟩ <;>
          simp_all
      · simp_all

/-- Structure of an aborted (`OUT_OF_DEVICE_MEMORY`) `cmd_dispatch`: the
stream and the sync point are untouched, the shader and uniform dirty
bits are untouched, and the descriptor-state bit never transitions
dirty → clean. -/
theorem cmd_dispatch_oom_shape (phys : PhysDev) (c : CmdBuffer)
    (info : DispatchInfo)
    (h : (cmd_dispatch_aux phys c info).2 = .oom) :
    (cmd_dispatch_aux phys c info).1.stream = c.stream ∧
    (cmd_dispatch_aux phys c info).1.relative_sync_point =
      c.relative_sync_point ∧
    (cmd_dispatch_aux phys c info).1.dirty_cs = c.dirty_cs ∧
    (cmd_dispatch_aux phys c info).1.dirty_push_uniforms =
      c.dirty_push_uniforms ∧
    (c.dirty_desc_state = true →
      (cmd_dispatch_aux phys c info).1.dirty_desc_state = true) ∧
    (cmd_dispatch_aux phys c info).1.shader = c.shader ∧
    c.tls_info_size ≤ (cmd_dispatch_aux phys c info).1.tls_info_size := by
  simp only [cmd_dispatch_aux] at h ⊢
  by_cases h0 : c.shader.spd = 0
  · simp [h0] at h
  · simp only [h0, if_false] at h ⊢
    obtain ⟨t1, t2, t3, t4, t5, t6, t7, t8, t9, t10, t11⟩ :=
      prepare_tls_frame phys c c.shader info.direct_wg_count
        (info.indirect_buffer_dev_addr != 0)
    by_cases h1 : (cmd_dispatch_prepare_tls phys c c.shader
        info.direct_wg_count (info.indirect_buffer_dev_addr != 0)).1 = 0
    · simp only [h1, if_true]
      exact ⟨t2, t3, t4, t6, fun hd => by rw [t5, hd], t1, t11⟩
    · simp only [h1, if_false] at h ⊢
      obtain ⟨p1, p2, p3, p4, p5, p6, p7, p8⟩ :=
        alloc_phase_frame (cmd_dispatch_prepare_tls phys c c.shader
          info.direct_wg_count (info.indirect_buffer_dev_addr != 0)).2
      by_cases h2 : (dispatch_alloc_phase (cmd_dispatch_prepare_tls phys c
          c.shader info.direct_wg_count
          (info.indirect_buffer_dev_addr != 0)).2).1 = VkResult.success
      · simp_all
      · simp only [h2, ne_eq, not_false_eq_true, if_true]
        refine ⟨?_, ?_, ?_, ?_, ?_, ?_, ?_⟩ <;> simp_all

/-- A dispatch whose outcome is `noShader` leaves the state unchanged. -/
theorem cmd_dispatch_noshader_eq (phys : PhysDev) (c : CmdBuffer)
    (info : DispatchInfo)
    (h : (cmd_dispatch_aux phys c info).2 = .noShader) :
    (cmd_dispatch_aux phys c info).1 = c := by
  simp only [cmd_dispatch_aux] at h ⊢
  by_cases h0 : c.shader.spd = 0
  · simp [h0]
  · simp only [h0, if_false] at h ⊢
    repeat' split at h
    all_goals simp_all

/-- `dispatch_precomp` never reports the no-shader outcome. -/
theorem dispatch_precomp_not_noshader (phys : PhysDev) (c : CmdBuffer)
    (sh : Shader) (grid : Dim3) (dsz : Nat) :
    (dispatch_precomp phys c sh grid dsz).2 ≠ .noShader := by
  simp only [dispatch_precomp]
  repeat' split
  all_goals simp

/-- Structure of a successful `dispatch_precomp`: the sync point
increments by one, all three compute dirty aspects are re-marked dirty,
the bound shader is untouched, and the tracked TLS size becomes the
maximum with the precompiled shader's declared size. -/
theorem precomp_success_shape (phys : PhysDev) (c : CmdBuffer) (sh : Shader)
    (grid : Dim3) (dsz : Nat)
    (h : (dispatch_precomp phys c sh grid dsz).2 = .success) :
    (dispatch_precomp phys c sh grid dsz).1.relative_sync_point =
      c.relative_sync_point + 1 ∧
    (dispatch_precomp phys c sh grid dsz).1.dirty_cs = true ∧
    (dispatch_precomp phys c sh grid dsz).1.dirty_desc_state = true ∧
    (dispatch_precomp phys c sh grid dsz).1.dirty_push_uniforms = true ∧
    (dispatch_precomp phys c sh grid dsz).1.shader = c.shader ∧
    (dispatch_precomp phys c sh grid dsz).1.tls_info_size =
      max sh.tls_size c.tls_info_size := by
  simp only [dispatch_precomp] at h ⊢
  by_cases h1 : (alloc c (PRECOMP_SYSVALS_SIZE + dsz) 16).1 = 0
  · rw [if_pos h1] at h
    simp at h
  · rw [if_neg h1] at h ⊢
    obtain ⟨t1, t2, t3, t4, t5, t6, t7, t8, t9, t10, t11⟩ :=
      prepare_tls_frame phys (alloc c (PRECOMP_SYSVALS_SIZE + dsz) 16).2 sh
        grid false
    by_cases h2 : (cmd_dispatch_prepare_tls phys
        (alloc c (PRECOMP_SYSVALS_SIZE + dsz) 16).2 sh grid false).1 = 0
    · rw [if_pos h2] at h
      simp at h
    · have htls := prepare_tls_success_tls phys
        (alloc c (PRECOMP_SYSVALS_SIZE + dsz) 16).2 sh grid false h2
      rw [if_neg h2]
      refine ⟨?_, ?_, ?_, ?_, ?_, ?_⟩ <;> simp_all

/-- Structure of an aborted `dispatch_precomp`: stream, sync point, dirty
aspects and bound shader unchanged; tracked TLS size does not shrink. -/
theorem precomp_oom_shape (phys : PhysDev) (c : CmdBuffer) (sh : Shader)
    (grid : Dim3) (dsz : Nat)
    (h : (dispatch_precomp phys c sh grid dsz).2 = .oom) :
    (dispatch_precomp phys c sh grid dsz).1.relative_sync_point =
      c.relative_sync_point ∧
    (dispatch_precomp phys c sh grid dsz).1.stream = c.stream ∧
    (dispatch_precomp phys c sh grid dsz).1.dirty_cs = c.dirty_cs ∧
    (dispatch_precomp phys c sh grid dsz).1.dirty_desc_state =
      c.dirty_desc_state ∧
    (dispatch_precomp phys c sh grid dsz).1.dirty_push_uniforms =
      c.dirty_push_uniforms ∧
    (dispatch_precomp phys c sh grid dsz).1.shader = c.shader ∧
    c.tls_info_size ≤ (dispatch_precomp phys c sh grid dsz).1.tls_info_size := by
  simp only [dispatch_precomp] at h ⊢
  by_cases h1 : (alloc c (PRECOMP_SYSVALS_SIZE + dsz) 16).1 = 0
  · rw [if_pos h1]
    refine ⟨?_, ?_, ?_, ?_, ?_, ?_, ?_⟩ <;> simp
  · rw [if_neg h1] at h ⊢
    obtain ⟨t1, t2, t3, t4, t5, t6, t7, t8, t9, t10, t11⟩ :=
      prepare_tls_frame phys (alloc c (PRECOMP_SYSVALS_SIZE + dsz) 16).2 sh
        grid false
    by_cases h2 : (cmd_dispatch_prepare_tls phys
        (alloc c (PRECOMP_SYSVALS_SIZE + dsz) 16).2 sh grid false).1 = 0
    · rw [if_pos h2]
      refine ⟨?_, ?_, ?_, ?_, ?_, ?_, ?_⟩ <;> simp_all
    · rw [if_neg h2] at h
      simp at h

/-- One step changes the sync point by exactly its delta (1 for a
successful dispatch, 0 otherwise); in particular it never decreases. -/
theorem run_step_sync (phys : PhysDev) (c : CmdBuffer) (s : CmdStep) :
    (run_step phys c s).relative_sync_point =
      c.relative_sync_point + step_sync_delta phys c s := by
  cases s with
  | bindShader sh => simp [run_step, step_sync_delta]
  | dispatch info =>
      rcases ho : (cmd_dispatch_aux phys c info).2 with _ | _ | _
      · simp [run_step, step_sync_delta, ho,
          cmd_dispatch_noshader_eq phys c info ho]
      · simp [run_step, step_sync_delta, ho,
          (cmd_dispatch_oom_shape phys c info ho).2.1]
      · simp [run_step, step_sync_delta, ho,
          (cmd_dispatch_success_shape phys c info ho).choose_spec.choose_spec.2.2.2.2.2.2.1]
  | precomp sh g d =>
      rcases ho : (dispatch_precomp phys c sh g d).2 with _ | _ | _
      · exact absurd ho (dispatch_precomp_not_noshader phys c sh g d)
      · simp [run_step, step_sync_delta, ho,
          (precomp_oom_shape phys c sh g d ho).1]
      · simp [run_step, step_sync_delta, ho,
          (precomp_success_shape phys c sh g d ho).1]

/-! ### Claim theorems -/

/-- C1: if any transient allocation step of a dispatch (direct or
indirect) fails with `OUT_OF_DEVICE_MEMORY`, `cmd_dispatch` returns with
the instruction stream unchanged (in particular without emitting a
run-compute instruction), no dirty aspect transitions from dirty to
clean, and the compute subqueue's relative sync point is unchanged. -/
theorem C1_oom_no_partial_dispatch (phys : PhysDev) (c : CmdBuffer)
    (info : DispatchInfo)
    (h : (cmd_dispatch_aux phys c info).2 = .oom) :
    (cmd_dispatch_aux phys c info).1.stream = c.stream ∧
    (c.dirty_cs = true → (cmd_dispatch_aux phys c info).1.dirty_cs = true) ∧
    (c.dirty_desc_state = true →
      (cmd_dispatch_aux phys c info).1.dirty_desc_state = true) ∧
    (c.dirty_push_uniforms = true →
      (cmd_dispatch_aux phys c info).1.dirty_push_uniforms = true) ∧
    (cmd_dispatch_aux phys c info).1.relative_sync_point =
      c.relative_sync_point := by
  obtain ⟨s1, s2, s3, s4, s5, s6, s7⟩ := cmd_dispatch_oom_shape phys c info h
  exact ⟨s1, fun hd => by rw [s3, hd], s5, fun hd => by rw [s4, hd], s2⟩

/-- Command buffer whose allocation oracle is exhausted: the very first
transient allocation of a dispatch fails. -/
def cmdbufOOM : CmdBuffer := { cmdbuf0 with allocs := [] }

/-- Witness for C1: on a concrete command buffer with an exhausted
allocator, the direct dispatch aborts with `OUT_OF_DEVICE_MEMORY` and the
no-partial-dispatch conclusions hold. -/
theorem C1_oom_no_partial_dispatch_witness :
    (cmd_dispatch_aux phys0 cmdbufOOM infoDirect0).2 = .oom ∧
    ((cmd_dispatch_aux phys0 cmdbufOOM infoDirect0).1.stream =
        cmdbufOOM.stream ∧
      (cmdbufOOM.dirty_cs = true →
        (cmd_dispatch_aux phys0 cmdbufOOM infoDirect0).1.dirty_cs = true) ∧
      (cmdbufOOM.dirty_desc_state = true →
        (cmd_dispatch_aux phys0 cmdbufOOM infoDirect0).1.dirty_desc_state =
          true) ∧
      (cmdbufOOM.dirty_push_uniforms = true →
        (cmd_dispatch_aux phys0 cmdbufOOM infoDirect0).1.dirty_push_uniforms =
          true) ∧
      (cmd_dispatch_aux phys0 cmdbufOOM infoDirect0).1.relative_sync_point =
        cmdbufOOM.relative_sync_point) :=
  ⟨by decide, C1_oom_no_partial_dispatch phys0 cmdbufOOM infoDirect0 (by decide)⟩

/-- C4: whenever the driver-owned descriptor table is rebuilt (shader or
descriptor-state dirty) and the rebuild succeeds, the table holds exactly
`dyn_bufs_count + 1` entries — the dummy sampler at index 0 followed by
one entry per dynamic buffer — and the recorded size is
`(dyn_bufs_count + 1)` descriptor slots. -/
theorem C4_driver_set_layout (c : CmdBuffer)
    (hdirty : (c.dirty_cs || c.dirty_desc_state) = true)
    (hok : (prepare_driver_set c).1 = VkResult.success) :
    (prepare_driver_set c).2.driver_set_entries.length =
      c.shader.dyn_bufs_count + 1 ∧
    (prepare_driver_set c).2.driver_set_entries.head? =
      some DescEntry.dummySampler ∧
    (∀ i, i < c.shader.dyn_bufs_count →
      (prepare_driver_set c).2.driver_set_entries[i + 1]? =
        some (DescEntry.dynBuf i)) ∧
    (prepare_driver_set c).2.driver_set_size =
      (c.shader.dyn_bufs_count + 1) * PANVK_DESCRIPTOR_SIZE := by
  by_cases ha : c.allocs.head?.getD 0 = 0
  · exfalso
    simp [prepare_driver_set, hdirty, ha] at hok
  · simp only [prepare_driver_set, hdirty, Bool.not_true, Bool.false_eq_true,
      if_false, alloc_fst, alloc_snd, List.headD_eq_head?_getD, ha]
    refine ⟨by simp, by simp, fun i hi => ?_, by simp⟩
    simp [List.getElem?_map, List.getElem?_range, hi]

/-- Witness for C4: on the concrete all-dirty command buffer the rebuild
succeeds and produces the dummy sampler followed by the two
dynamic-buffer entries. -/
theorem C4_driver_set_layout_witness :
    (cmdbuf0.dirty_cs || cmdbuf0.dirty_desc_state) = true ∧
    (prepare_driver_set cmdbuf0).1 = VkResult.success ∧
    ((prepare_driver_set cmdbuf0).2.driver_set_entries.length =
        cmdbuf0.shader.dyn_bufs_count + 1 ∧
      (prepare_driver_set cmdbuf0).2.driver_set_entries.head? =
        some DescEntry.dummySampler ∧
      (∀ i, i < cmdbuf0.shader.dyn_bufs_count →
        (prepare_driver_set cmdbuf0).2.driver_set_entries[i + 1]? =
          some (DescEntry.dynBuf i)) ∧
      (prepare_driver_set cmdbuf0).2.driver_set_size =
        (cmdbuf0.shader.dyn_bufs_count + 1) * PANVK_DESCRIPTOR_SIZE) :=
  ⟨by decide, by decide,
    C4_driver_set_layout cmdbuf0 (by decide) (by decide)⟩

/-- C7: when no compute shader is bound (null shader program address),
every dispatch — direct or indirect, through either entry point — is a
silent no-op: the state is returned unchanged (no instructions, no
allocation, no dirty-aspect change, no sync-point change) and the
outcome is not an error. -/
theorem C7_null_shader_noop (phys : PhysDev) (c : CmdBuffer)
    (h : c.shader.spd = 0) :
    (∀ info, cmd_dispatch_aux phys c info = (c, Outcome.noShader)) ∧
    (∀ bX bY bZ cX cY cZ, CmdDispatchBase phys c bX bY bZ cX cY cZ = c) ∧
    (∀ addr, CmdDispatchIndirect phys c addr = c) := by
  have hall : ∀ info, cmd_dispatch_aux phys c info = (c, Outcome.noShader) := by
    intro info
    simp [cmd_dispatch_aux, h]
  exact ⟨hall,
    fun bX bY bZ cX cY cZ => by
      simp [CmdDispatchBase, cmd_dispatch, hall],
    fun addr => by
      simp [CmdDispatchIndirect, cmd_dispatch, hall]⟩

/-- Command buffer with no bound compute shader (null program address). -/
def cmdbufNoShader : CmdBuffer :=
  { cmdbuf0 with shader := { shader0 with spd := 0 } }

/-- Witness for C7: on a concrete command buffer with a null shader, both
a direct and an indirect dispatch leave the state unchanged. -/
theorem C7_null_shader_noop_witness :
    cmdbufNoShader.shader.spd = 0 ∧
    ((∀ info, cmd_dispatch_aux phys0 cmdbufNoShader info =
        (cmdbufNoShader, Outcome.noShader)) ∧
      (∀ bX bY bZ cX cY cZ,
        CmdDispatchBase phys0 cmdbufNoShader bX bY bZ cX cY cZ =
          cmdbufNoShader) ∧
      (∀ addr, CmdDispatchIndirect phys0 cmdbufNoShader addr =
        cmdbufNoShader)) :=
  ⟨by decide, C7_null_shader_noop phys0 cmdbufNoShader (by decide)⟩

set_option maxHeartbeats 1600000 in
/-- C10: `cmd_dispatch_prepare_tls` returns a nonzero GPU address exactly
when every transient allocation it performed succeeded (every entry it
appended to the allocation log has a nonzero result); and when it returns
0 inside a dispatch with a bound shader, `cmd_dispatch` aborts with the
stream unchanged. -/
theorem C10_prepare_tls_all_or_nothing (phys : PhysDev) (c : CmdBuffer)
    (sh : Shader) (dim : Dim3) (ind : Bool) :
    ((cmd_dispatch_prepare_tls phys c sh dim ind).1 ≠ 0 ↔
      ∀ e ∈ (cmd_dispatch_prepare_tls phys c sh dim ind).2.allocLog.drop
        c.allocLog.length, e.result ≠ 0) ∧
    (∀ info, c.shader.spd ≠ 0 →
      (cmd_dispatch_prepare_tls phys c c.shader info.direct_wg_count
        (info.indirect_buffer_dev_addr != 0)).1 = 0 →
      (cmd_dispatch_aux phys c info).1.stream = c.stream ∧
      (cmd_dispatch_aux phys c info).2 = .oom) := by
  constructor
  · simp only [cmd_dispatch_prepare_tls, tls_wls_alloc, tls_desc_step,
      tls_grow]
    repeat' split
    all_goals simp_all [List.drop_left]
  · intro info hspd h1
    obtain ⟨t1, t2, t3, t4, t5, t6, t7, t8, t9, t10, t11⟩ :=
      prepare_tls_frame phys c c.shader info.direct_wg_count
        (info.indirect_buffer_dev_addr != 0)
    simp only [cmd_dispatch_aux, if_neg hspd, h1, if_true]
    exact ⟨t2, trivial⟩

/-- Witness for C10: on the concrete command buffer every allocation
succeeds, so the returned TSD address is nonzero and the logged results
are all nonzero; and on the exhausted-allocator buffer the dispatch
aborts with the stream unchanged. -/
theorem C10_prepare_tls_all_or_nothing_witness :
    ((cmd_dispatch_prepare_tls phys0 cmdbuf0 shader0 ⟨4, 1, 1⟩ false).1 ≠ 0 ↔
      ∀ e ∈ (cmd_dispatch_prepare_tls phys0 cmdbuf0 shader0
          ⟨4, 1, 1⟩ false).2.allocLog.drop cmdbuf0.allocLog.length,
        e.result ≠ 0) ∧
    (cmdbufOOM.shader.spd ≠ 0 ∧
      (cmd_dispatch_prepare_tls phys0 cmdbufOOM cmdbufOOM.shader
        infoDirect0.direct_wg_count
        (infoDirect0.indirect_buffer_dev_addr != 0)).1 = 0 ∧
      ((cmd_dispatch_aux phys0 cmdbufOOM infoDirect0).1.stream =
          cmdbufOOM.stream ∧
        (cmd_dispatch_aux phys0 cmdbufOOM infoDirect0).2 = .oom)) :=
  ⟨(C10_prepare_tls_all_or_nothing phys0 cmdbuf0 shader0 ⟨4, 1, 1⟩ false).1,
    by decide, by decide,
    (C10_prepare_tls_all_or_nothing phys0 cmdbufOOM shader0 ⟨4, 1, 1⟩
        false).2 infoDirect0 (by decide) (by decide)⟩

set_option maxHeartbeats 1600000 in
/-- C8: when the shader declares nonzero WLS and the TLS preparation
succeeds, the WLS allocation request (the second allocation logged by
`cmd_dispatch_prepare_tls`) has size `per_workgroup_size × instance_count
× core_id_range`, where the instance count is computed from the actual
dimensions for a direct dispatch and with the dimensions omitted for an
indirect dispatch; the request is 4096-aligned and succeeded. -/
theorem C8_wls_total_size (phys : PhysDev) (c : CmdBuffer) (sh : Shader)
    (dim : Dim3) (ind : Bool)
    (hw : sh.wls_size ≠ 0)
    (h : (cmd_dispatch_prepare_tls phys c sh dim ind).1 ≠ 0) :
    ∃ e, ((cmd_dispatch_prepare_tls phys c sh dim ind).2.allocLog.drop
        c.allocLog.length)[1]? = some e ∧
      e.size = sh.wls_size *
        phys.calcWlsInstances sh.local_size
          (if ind then none else some dim) *
        phys.core_id_range ∧
      e.align = 4096 ∧ e.result ≠ 0 := by
  simp only [cmd_dispatch_prepare_tls, tls_wls_alloc, tls_desc_step,
    tls_grow, pan_calc_total_wls_size] at h ⊢
  repeat' split at h
  all_goals simp_all [List.drop_left]

/-- Witness for C8: on the concrete setup (direct dispatch of a 4×1×1
grid, 8-byte WLS, instance count `min 64 4 = 4`, 10 cores) the logged WLS
request has size 8 × 4 × 10 = 320. -/
theorem C8_wls_total_size_witness :
    shader0.wls_size ≠ 0 ∧
    (cmd_dispatch_prepare_tls phys0 cmdbuf0 shader0 ⟨4, 1, 1⟩ false).1 ≠ 0 ∧
    ∃ e, ((cmd_dispatch_prepare_tls phys0 cmdbuf0 shader0
        ⟨4, 1, 1⟩ false).2.allocLog.drop cmdbuf0.allocLog.length)[1]? =
        some e ∧
      e.size = shader0.wls_size *
        phys0.calcWlsInstances shader0.local_size
          (if false then none else some ⟨4, 1, 1⟩) *
        phys0.core_id_range ∧
      e.align = 4096 ∧ e.result ≠ 0 :=
  ⟨by decide, by decide,
    C8_wls_total_size phys0 cmdbuf0 shader0 ⟨4, 1, 1⟩ false (by decide)
      (by decide)⟩

/-- The sync point after a sequence of steps is the starting value plus
the number of successful dispatches. -/
theorem run_steps_sync (phys : PhysDev) (c : CmdBuffer)
    (steps : List CmdStep) :
    (run_steps phys c steps).relative_sync_point =
      c.relative_sync_point + count_successes phys c steps := by
  induction steps generalizing c with
  | nil => simp [run_steps, count_successes]
  | cons s rest ih =>
      simp only [run_steps, count_successes]
      rw [ih, run_step_sync]
      omega

/-- In an all-successful sequence, every dispatch step counts. -/
theorem steps_all_succeed_count (phys : PhysDev) (c : CmdBuffer)
    (steps : List CmdStep)
    (h : steps_all_succeed phys c steps = true) :
    count_successes phys c steps = dispatch_count steps := by
  induction steps generalizing c with
  | nil => simp [count_successes, dispatch_count]
  | cons s rest ih =>
      simp only [steps_all_succeed, Bool.and_eq_true] at h
      obtain ⟨h1, h2⟩ := h
      cases s with
      | bindShader sh =>
          simp only [count_successes, step_sync_delta, dispatch_count,
            Nat.zero_add]
          exact ih _ h2
      | dispatch info =>
          have ho : (cmd_dispatch_aux phys c info).2 = .success := by
            simpa using h1
          simp only [count_successes, step_sync_delta, ho, if_pos,
            dispatch_count]
          rw [ih _ h2]
      | precomp sh g d =>
          have ho : (dispatch_precomp phys c sh g d).2 = .success := by
            simpa using h1
          simp only [count_successes, step_sync_delta, ho, if_pos,
            dispatch_count]
          rw [ih _ h2]

/-- One step never shrinks the tracked TLS size. -/
theorem run_step_tls_mono (phys : PhysDev) (c : CmdBuffer) (s : CmdStep) :
    c.tls_info_size ≤ (run_step phys c s).tls_info_size := by
  cases s with
  | bindShader sh => simp [run_step]
  | dispatch info =>
      rcases ho : (cmd_dispatch_aux phys c info).2 with _ | _ | _
      · simp [run_step, cmd_dispatch_noshader_eq phys c info ho]
      · simpa [run_step] using
          (cmd_dispatch_oom_shape phys c info ho).2.2.2.2.2.2
      · obtain ⟨c', tsd, a1, a2, a3, a4, a5, a6, a7, a8, a9, a10, a11, a12⟩ :=
          cmd_dispatch_success_shape phys c info ho
        simp [run_step, a11, Nat.le_max_right]
  | precomp sh g d =>
      rcases ho : (dispatch_precomp phys c sh g d).2 with _ | _ | _
      · exact absurd ho (dispatch_precomp_not_noshader phys c sh g d)
      · simpa [run_step] using
          (precomp_oom_shape phys c sh g d ho).2.2.2.2.2.2
      · simp [run_step, (precomp_success_shape phys c sh g d ho).2.2.2.2.2,
          Nat.le_max_right]

/-- After an all-successful sequence, the tracked TLS size is the fold of
`max` over the dispatched shaders' declared TLS sizes. -/
theorem run_steps_tls_eq (phys : PhysDev) (c : CmdBuffer)
    (steps : List CmdStep)
    (h : steps_all_succeed phys c steps = true) :
    (run_steps phys c steps).tls_info_size =
      (dispatched_tls_sizes phys c steps).foldl max c.tls_info_size := by
  induction steps generalizing c with
  | nil => simp [run_steps, dispatched_tls_sizes]
  | cons s rest ih =>
      simp only [steps_all_succeed, Bool.and_eq_true] at h
      obtain ⟨h1, h2⟩ := h
      cases s with
      | bindShader sh =>
          simp only [run_steps, dispatched_tls_sizes, List.nil_append]
          rw [ih _ h2]
          rfl
      | dispatch info =>
          have ho : (cmd_dispatch_aux phys c info).2 = .success := by
            simpa using h1
          obtain ⟨c', tsd, a1, a2, a3, a4, a5, a6, a7, a8, a9, a10, a11, a12⟩ :=
            cmd_dispatch_success_shape phys c info ho
          simp only [run_steps, dispatched_tls_sizes, ho, if_pos,
            List.cons_append, List.nil_append, List.foldl_cons]
          rw [ih _ h2, run_step, a11, Nat.max_comm]
      | precomp sh g d =>
          have ho : (dispatch_precomp phys c sh g d).2 = .success := by
            simpa using h1
          simp only [run_steps, dispatched_tls_sizes, ho, if_pos,
            List.cons_append, List.nil_append, List.foldl_cons]
          rw [ih _ h2, run_step,
            (precomp_success_shape phys c sh g d ho).2.2.2.2.2, Nat.max_comm]

/-- C2: over any sequence of command-buffer steps, the compute subqueue's
relative sync point grows by exactly the number of successful dispatches
(so after N successful dispatches it is the starting value plus N), and
it never decreases. -/
theorem C2_sync_point_additivity (phys : PhysDev) (c : CmdBuffer)
    (steps : List CmdStep) :
    (run_steps phys c steps).relative_sync_point =
      c.relative_sync_point + count_successes phys c steps ∧
    (steps_all_succeed phys c steps = true →
      (run_steps phys c steps).relative_sync_point =
        c.relative_sync_point + dispatch_count steps) ∧
    c.relative_sync_point ≤ (run_steps phys c steps).relative_sync_point := by
  refine ⟨run_steps_sync phys c steps, ?_, ?_⟩
  · intro h
    rw [run_steps_sync phys c steps, steps_all_succeed_count phys c steps h]
  · rw [run_steps_sync phys c steps]
    omega

/-- Concrete two-dispatch sequence used by the witnesses. -/
def steps2 : List CmdStep := [.dispatch infoDirect0, .dispatch infoDirect0]

/-- Witness for C2: two successful direct dispatches on the concrete
command buffer advance the sync point by exactly 2. -/
theorem C2_sync_point_additivity_witness :
    steps_all_succeed phys0 cmdbuf0 steps2 = true ∧
    (run_steps phys0 cmdbuf0 steps2).relative_sync_point =
      cmdbuf0.relative_sync_point + dispatch_count steps2 :=
  ⟨by decide, (C2_sync_point_additivity phys0 cmdbuf0 steps2).2.1 (by decide)⟩

/-- C6: the per-command-buffer tracked TLS size never decreases across
any sequence of steps, and after an all-successful sequence it equals the
maximum of its initial value and the declared TLS sizes of all dispatched
shaders. -/
theorem C6_tls_monotone_max (phys : PhysDev) (c : CmdBuffer)
    (steps : List CmdStep) :
    c.tls_info_size ≤ (run_steps phys c steps).tls_info_size ∧
    (steps_all_succeed phys c steps = true →
      (run_steps phys c steps).tls_info_size =
        (dispatched_tls_sizes phys c steps).foldl max c.tls_info_size) := by
  constructor
  · induction steps generalizing c with
    | nil => simp [run_steps]
    | cons s rest ih =>
        exact le_trans (run_step_tls_mono phys c s) (ih (run_step phys c s))
  · exact run_steps_tls_eq phys c steps

/-- Witness for C6: the concrete two-dispatch sequence succeeds and the
final tracked TLS size is the fold of `max` over the dispatched sizes. -/
theorem C6_tls_monotone_max_witness :
    steps_all_succeed phys0 cmdbuf0 steps2 = true ∧
    (run_steps phys0 cmdbuf0 steps2).tls_info_size =
      (dispatched_tls_sizes phys0 cmdbuf0 steps2).foldl max
        cmdbuf0.tls_info_size :=
  ⟨by decide, (C6_tls_monotone_max phys0 cmdbuf0 steps2).2 (by decide)⟩

/-- Recognizer for the run-compute instruction. -/
def isRunCompute : Instr → Bool
  | .runCompute _ _ => true
  | _ => false

/-- Every dispatch emission contains exactly one run-compute
instruction. -/
theorem emit_instrs_one_run (phys : PhysDev) (c' : CmdBuffer) (sh : Shader)
    (tsd : Nat) (info : DispatchInfo) (ind : Bool) (wgpt : Nat) :
    (dispatch_emit_instrs phys c' sh tsd info ind wgpt).countP
      isRunCompute = 1 := by
  simp only [dispatch_emit_instrs, dispatch_ctx_instrs, tls_copy_instrs,
    sync_epilogue, List.countP_append, countP_optInstrs]
  repeat' split
  all_goals simp [isRunCompute]

/-- With all dirty aspects clean, the dispatch emission contains no
register loads for the shader program (SPD), the resource table (SRT), or
the push uniforms (FAU). -/
theorem emit_instrs_no_reload (phys : PhysDev) (c' : CmdBuffer) (sh : Shader)
    (tsd : Nat) (info : DispatchInfo) (ind : Bool) (wgpt : Nat)
    (hcs : c'.dirty_cs = false) (hds : c'.dirty_desc_state = false)
    (hpu : c'.dirty_push_uniforms = false) (v : Nat) :
    Instr.move64 .SPD_0 v ∉ dispatch_emit_instrs phys c' sh tsd info ind wgpt ∧
    Instr.move64 .SRT_0 v ∉ dispatch_emit_instrs phys c' sh tsd info ind wgpt ∧
    Instr.move64 .FAU_0 v ∉ dispatch_emit_instrs phys c' sh tsd info ind wgpt := by
  simp only [dispatch_emit_instrs, dispatch_ctx_instrs, tls_copy_instrs,
    sync_epilogue, hcs, hds, hpu, List.mem_append, mem_optInstrs]
  repeat' split
  all_goals simp

/-- With all dirty aspects set, the dispatch emission reloads the shader
program (SPD), resource table (SRT), and push-uniform (FAU) registers. -/
theorem emit_instrs_reload_all (phys : PhysDev) (c' : CmdBuffer) (sh : Shader)
    (tsd : Nat) (info : DispatchInfo) (ind : Bool) (wgpt : Nat)
    (hcs : c'.dirty_cs = true) (hpu : c'.dirty_push_uniforms = true) :
    (∃ v, Instr.move64 .SPD_0 v ∈
      dispatch_emit_instrs phys c' sh tsd info ind wgpt) ∧
    (∃ v, Instr.move64 .SRT_0 v ∈
      dispatch_emit_instrs phys c' sh tsd info ind wgpt) ∧
    (∃ v, Instr.move64 .FAU_0 v ∈
      dispatch_emit_instrs phys c' sh tsd info ind wgpt) := by
  refine ⟨⟨sh.spd, ?_⟩, ⟨c'.res_table, ?_⟩,
    ⟨fau_ptr c'.push_uniforms sh.fau_total_count, ?_⟩⟩ <;>
    simp [dispatch_emit_instrs, dispatch_ctx_instrs, hcs, hpu]

/-- Workgroup-count register setup of the dispatch emission: an indirect
dispatch loads the three JOB_SIZE registers from the indirect buffer's
GPU address and moves no immediates into them; a direct dispatch moves
the three counts as immediates and emits no tuple load at all. -/
theorem emit_instrs_job_size (phys : PhysDev) (c' : CmdBuffer) (sh : Shader)
    (tsd : Nat) (info : DispatchInfo) (ind : Bool) (wgpt : Nat) :
    (ind = true →
      Instr.scratchMove64 0 info.indirect_buffer_dev_addr ∈
        dispatch_emit_instrs phys c' sh tsd info ind wgpt ∧
      Instr.loadTupleSR .JOB_SIZE_X 3 0 7 0 ∈
        dispatch_emit_instrs phys c' sh tsd info ind wgpt ∧
      (∀ r v, (r = SR.JOB_SIZE_X ∨ r = SR.JOB_SIZE_Y ∨ r = SR.JOB_SIZE_Z) →
        Instr.move32 r v ∉
          dispatch_emit_instrs phys c' sh tsd info ind wgpt)) ∧
    (ind = false →
      Instr.move32 .JOB_SIZE_X info.direct_wg_count.x ∈
        dispatch_emit_instrs phys c' sh tsd info ind wgpt ∧
      Instr.move32 .JOB_SIZE_Y info.direct_wg_count.y ∈
        dispatch_emit_instrs phys c' sh tsd info ind wgpt ∧
      Instr.move32 .JOB_SIZE_Z info.direct_wg_count.z ∈
        dispatch_emit_instrs phys c' sh tsd info ind wgpt ∧
      (∀ dst cnt src mask off, Instr.loadTupleSR dst cnt src mask off ∉
        dispatch_emit_instrs phys c' sh tsd info ind wgpt)) := by
  constructor
  · rintro rfl
    refine ⟨?_, ?_, ?_⟩
    · simp [dispatch_emit_instrs, dispatch_ctx_instrs]
    · simp [dispatch_emit_instrs, dispatch_ctx_instrs]
    · rintro r v (rfl | rfl | rfl) <;>
        · simp only [dispatch_emit_instrs, dispatch_ctx_instrs,
            tls_copy_instrs, sync_epilogue, if_true, List.mem_append,
            mem_optInstrs]
          repeat' split
          all_goals simp_all
  · rintro rfl
    refine ⟨?_, ?_, ?_, ?_⟩
    · simp [dispatch_emit_instrs, dispatch_ctx_instrs]
    · simp [dispatch_emit_instrs, dispatch_ctx_instrs]
    · simp [dispatch_emit_instrs, dispatch_ctx_instrs]
    · intro dst cnt src mask off
      simp only [dispatch_emit_instrs, dispatch_ctx_instrs, tls_copy_instrs,
        sync_epilogue, if_false, List.mem_append, mem_optInstrs]
      repeat' split
      all_goals simp_all

/-- C3: for two consecutive direct dispatches with identical shader,
descriptor, and push-uniform state (nothing re-bound in between, so all
dirty aspects are clean when the second runs), the second dispatch
appends instructions containing no register loads for the shader program
(SPD), resource table (SRT), or push-uniform (FAU) registers, but still
exactly one run-compute instruction and exactly one sync-point
increment. -/
theorem C3_second_dispatch_clean (phys : PhysDev) (c : CmdBuffer)
    (info : DispatchInfo)
    (hdirect : info.indirect_buffer_dev_addr = 0)
    (h1 : (cmd_dispatch_aux phys c info).2 = .success)
    (h2 : (cmd_dispatch_aux phys (cmd_dispatch_aux phys c info).1 info).2 =
      .success) :
    ∃ delta,
      (cmd_dispatch_aux phys (cmd_dispatch_aux phys c info).1 info).1.stream =
        (cmd_dispatch_aux phys c info).1.stream ++ delta ∧
      (∀ v, Instr.move64 .SPD_0 v ∉ delta) ∧
      (∀ v, Instr.move64 .SRT_0 v ∉ delta) ∧
      (∀ v, Instr.move64 .FAU_0 v ∉ delta) ∧
      delta.countP isRunCompute = 1 ∧
      (cmd_dispatch_aux phys (cmd_dispatch_aux phys c info).1
          info).1.relative_sync_point =
        (cmd_dispatch_aux phys c info).1.relative_sync_point + 1 := by
  obtain ⟨d', tsd1, b1, b2, b3, b4, b5, b6, b7, b8, b9, b10, b11, b12⟩ :=
    cmd_dispatch_success_shape phys c info h1
  obtain ⟨c', tsd, a1, a2, a3, a4, a5, a6, a7, a8, a9, a10, a11, a12⟩ :=
    cmd_dispatch_success_shape phys (cmd_dispatch_aux phys c info).1 info h2
  have hcs : c'.dirty_cs = false := by rw [a3, b8]
  have hds : c'.dirty_desc_state = false := by simp [a5, b9, b8]
  have hpu : c'.dirty_push_uniforms = false := by rw [a4, b10]
  refine ⟨_, a6, ?_, ?_, ?_, emit_instrs_one_run phys c' _ tsd info _ _, a7⟩
  · exact fun v =>
      (emit_instrs_no_reload phys c' _ tsd info _ _ hcs hds hpu v).1
  · exact fun v =>
      (emit_instrs_no_reload phys c' _ tsd info _ _ hcs hds hpu v).2.1
  · exact fun v =>
      (emit_instrs_no_reload phys c' _ tsd info _ _ hcs hds hpu v).2.2

/-- Witness for C3: two consecutive successful direct dispatches on the
concrete command buffer satisfy the no-reload conclusions. -/
theorem C3_second_dispatch_clean_witness :
    infoDirect0.indirect_buffer_dev_addr = 0 ∧
    (cmd_dispatch_aux phys0 cmdbuf0 infoDirect0).2 = .success ∧
    (cmd_dispatch_aux phys0 (cmd_dispatch_aux phys0 cmdbuf0 infoDirect0).1
      infoDirect0).2 = .success ∧
    ∃ delta,
      (cmd_dispatch_aux phys0 (cmd_dispatch_aux phys0 cmdbuf0 infoDirect0).1
          infoDirect0).1.stream =
        (cmd_dispatch_aux phys0 cmdbuf0 infoDirect0).1.stream ++ delta ∧
      (∀ v, Instr.move64 .SPD_0 v ∉ delta) ∧
      (∀ v, Instr.move64 .SRT_0 v ∉ delta) ∧
      (∀ v, Instr.move64 .FAU_0 v ∉ delta) ∧
      delta.countP isRunCompute = 1 ∧
      (cmd_dispatch_aux phys0 (cmd_dispatch_aux phys0 cmdbuf0 infoDirect0).1
          infoDirect0).1.relative_sync_point =
        (cmd_dispatch_aux phys0 cmdbuf0 infoDirect0).1.relative_sync_point +
          1 :=
  ⟨by decide, by decide, by decide,
    C3_second_dispatch_clean phys0 cmdbuf0 infoDirect0 (by decide)
      (by decide) (by decide)⟩

/-- C5: a successful indirect dispatch appends instructions that load the
three JOB_SIZE registers from the indirect buffer's GPU address and
contain no immediate moves into the workgroup-count registers; a
successful direct dispatch appends the three counts as immediate moves
and no register-tuple buffer load at all. -/
theorem C5_job_size_source (phys : PhysDev) (c : CmdBuffer)
    (info : DispatchInfo)
    (h : (cmd_dispatch_aux phys c info).2 = .success) :
    ∃ delta, (cmd_dispatch_aux phys c info).1.stream = c.stream ++ delta ∧
      (info.indirect_buffer_dev_addr ≠ 0 →
        Instr.scratchMove64 0 info.indirect_buffer_dev_addr ∈ delta ∧
        Instr.loadTupleSR .JOB_SIZE_X 3 0 7 0 ∈ delta ∧
        ∀ r v, (r = SR.JOB_SIZE_X ∨ r = SR.JOB_SIZE_Y ∨ r = SR.JOB_SIZE_Z) →
          Instr.move32 r v ∉ delta) ∧
      (info.indirect_buffer_dev_addr = 0 →
        Instr.move32 .JOB_SIZE_X info.direct_wg_count.x ∈ delta ∧
        Instr.move32 .JOB_SIZE_Y info.direct_wg_count.y ∈ delta ∧
        Instr.move32 .JOB_SIZE_Z info.direct_wg_count.z ∈ delta ∧
        ∀ dst cnt src mask off,
          Instr.loadTupleSR dst cnt src mask off ∉ delta) := by
  obtain ⟨c', tsd, a1, a2, a3, a4, a5, a6, a7, a8, a9, a10, a11, a12⟩ :=
    cmd_dispatch_success_shape phys c info h
  refine ⟨_, a6, ?_, ?_⟩
  · intro hne
    have hb : (info.indirect_buffer_dev_addr != 0) = true := by
      simpa [bne_iff_ne] using hne
    exact (emit_instrs_job_size phys c' c.shader tsd info
      (info.indirect_buffer_dev_addr != 0) _).1 hb
  · intro hz
    have hb : (info.indirect_buffer_dev_addr != 0) = false := by
      simp [hz]
    exact (emit_instrs_job_size phys c' c.shader tsd info
      (info.indirect_buffer_dev_addr != 0) _).2 hb

/-- Witness for C5: the concrete indirect dispatch succeeds and its
appended instructions satisfy the indirect-branch conclusions. -/
theorem C5_job_size_source_witness :
    (cmd_dispatch_aux phys0 cmdbuf0 infoIndirect0).2 = .success ∧
    ∃ delta,
      (cmd_dispatch_aux phys0 cmdbuf0 infoIndirect0).1.stream =
        cmdbuf0.stream ++ delta ∧
      (infoIndirect0.indirect_buffer_dev_addr ≠ 0 →
        Instr.scratchMove64 0 infoIndirect0.indirect_buffer_dev_addr ∈
          delta ∧
        Instr.loadTupleSR .JOB_SIZE_X 3 0 7 0 ∈ delta ∧
        ∀ r v, (r = SR.JOB_SIZE_X ∨ r = SR.JOB_SIZE_Y ∨ r = SR.JOB_SIZE_Z) →
          Instr.move32 r v ∉ delta) ∧
      (infoIndirect0.indirect_buffer_dev_addr = 0 →
        Instr.move32 .JOB_SIZE_X infoIndirect0.direct_wg_count.x ∈ delta ∧
        Instr.move32 .JOB_SIZE_Y infoIndirect0.direct_wg_count.y ∈ delta ∧
        Instr.move32 .JOB_SIZE_Z infoIndirect0.direct_wg_count.z ∈ delta ∧
        ∀ dst cnt src mask off,
          Instr.loadTupleSR dst cnt src mask off ∉ delta) :=
  ⟨by decide, C5_job_size_source phys0 cmdbuf0 infoIndirect0 (by decide)⟩

/-- C9: after a successful internal precompiled-kernel dispatch, all
three compute dirty aspects are set dirty, so the next successful
application dispatch on the same command buffer re-emits the SPD, SRT,
and FAU registers. -/
theorem C9_precomp_redirties (phys : PhysDev) (c : CmdBuffer) (sh : Shader)
    (grid : Dim3) (dsz : Nat) (info : DispatchInfo)
    (h : (dispatch_precomp phys c sh grid dsz).2 = .success)
    (h2 : (cmd_dispatch_aux phys (dispatch_precomp phys c sh grid dsz).1
      info).2 = .success) :
    (dispatch_precomp phys c sh grid dsz).1.dirty_cs = true ∧
    (dispatch_precomp phys c sh grid dsz).1.dirty_desc_state = true ∧
    (dispatch_precomp phys c sh grid dsz).1.dirty_push_uniforms = true ∧
    ∃ delta,
      (cmd_dispatch_aux phys (dispatch_precomp phys c sh grid dsz).1
          info).1.stream =
        (dispatch_precomp phys c sh grid dsz).1.stream ++ delta ∧
      (∃ v, Instr.move64 .SPD_0 v ∈ delta) ∧
      (∃ v, Instr.move64 .SRT_0 v ∈ delta) ∧
      (∃ v, Instr.move64 .FAU_0 v ∈ delta) := by
  obtain ⟨ps1, ps2, ps3, ps4, ps5, ps6⟩ :=
    precomp_success_shape phys c sh grid dsz h
  obtain ⟨c', tsd, a1, a2, a3, a4, a5, a6, a7, a8, a9, a10, a11, a12⟩ :=
    cmd_dispatch_success_shape phys (dispatch_precomp phys c sh grid dsz).1
      info h2
  have hcs : c'.dirty_cs = true := by rw [a3, ps2]
  have hpu : c'.dirty_push_uniforms = true := by rw [a4, ps4]
  exact ⟨ps2, ps3, ps4, _, a6,
    emit_instrs_reload_all phys c' _ tsd info _ _ hcs hpu⟩

/-- Witness for C9: a concrete precompiled-kernel dispatch followed by a
concrete application dispatch, both successful, with the dirty bits set
in between and the three registers re-emitted. -/
theorem C9_precomp_redirties_witness :
    (dispatch_precomp phys0 cmdbuf0 shader0 ⟨2, 2, 1⟩ 24).2 = .success ∧
    (cmd_dispatch_aux phys0
      (dispatch_precomp phys0 cmdbuf0 shader0 ⟨2, 2, 1⟩ 24).1
      infoDirect0).2 = .success ∧
    ((dispatch_precomp phys0 cmdbuf0 shader0 ⟨2, 2, 1⟩ 24).1.dirty_cs =
        true ∧
      (dispatch_precomp phys0 cmdbuf0 shader0
        ⟨2, 2, 1⟩ 24).1.dirty_desc_state = true ∧
      (dispatch_precomp phys0 cmdbuf0 shader0
        ⟨2, 2, 1⟩ 24).1.dirty_push_uniforms = true ∧
      ∃ delta,
        (cmd_dispatch_aux phys0
            (dispatch_precomp phys0 cmdbuf0 shader0 ⟨2, 2, 1⟩ 24).1
            infoDirect0).1.stream =
          (dispatch_precomp phys0 cmdbuf0 shader0 ⟨2, 2, 1⟩ 24).1.stream ++
            delta ∧
        (∃ v, Instr.move64 .SPD_0 v ∈ delta) ∧
        (∃ v, Instr.move64 .SRT_0 v ∈ delta) ∧
        (∃ v, Instr.move64 .FAU_0 v ∈ delta)) :=
  ⟨by decide, by decide,
    C9_precomp_redirties phys0 cmdbuf0 shader0 ⟨2, 2, 1⟩ 24 infoDirect0
      (by decide) (by decide)⟩

end Panvk
